import Mathlib

/-!
Verification of the registry-broker plugin (hashgraph-online/rb-hak-plugin).

This file shallowly embeds the plugin's glue logic:
  * `RegistryBrokerClientProvider` — ledger-credential resolution with a fixed
    precedence (explicit config, injected Hedera signing client, environment
    variables), client-option assembly, and memoised client construction
    (src/RegistryBrokerClientProvider.ts);
  * `RegistryBrokerOperationTool` — the generic operation-name + payload
    dispatch against the operation definition table, with per-operation zod
    validation, conversation-handle tracking, and RegistryBrokerParseError
    recovery (src/RegistryBrokerOperationTool.ts);
  * `RegistryBrokerConversationStore` — the id-keyed conversation handle map
    (src/RegistryBrokerConversationStore.ts).

Conventions of the embedding:
  * `process.env` is an abstract map `Env := String → Option String`;
  * JavaScript byte arrays (`Uint8Array`) are `List Nat` with bytes taken
    mod 256 where they are consumed;
  * asynchronous SDK calls are modelled as pure oracles supplied as
    parameters (the SDK is an external dependency, not part of this repo);
  * `crypto.randomUUID` is nondeterministic in the source, so handle-id
    creation is modelled by an abstract generator `genId : Nat → String`
    applied to a per-store counter.
-/

namespace RegistryBroker

/-- The whitespace characters recognised when trimming (the ASCII subset of
the JavaScript `String.prototype.trim` whitespace class). -/
def jsWhitespace (c : Char) : Bool :=
  c == ' ' || c == '\t' || c == '\n' || c == '\r' || c == '\x0b' || c == '\x0c'

/-- `value.trim()` — strip whitespace from both ends (structural model of
the JavaScript built-in). -/
def jsTrim (s : String) : String :=
  String.mk (((s.data.dropWhile jsWhitespace).reverse.dropWhile jsWhitespace).reverse)

/-- `value.toLowerCase()` restricted to ASCII letters (the only inputs this
code lower-cases are network names). -/
def jsToLower (s : String) : String := String.mk (s.data.map Char.toLower)

/-- `value.startsWith(pre)`. -/
def jsStartsWith (s pre : String) : Bool := pre.data.isPrefixOf s.data

/-- The process environment: variable name to raw value (none = unset). -/
def Env : Type := String → Option String

/-- Source: `const env = (key) => process.env[key]?.trim() || undefined;`
`?.trim()` trims a present value and `|| undefined` drops an empty result. -/
def envGet (e : Env) (key : String) : Option String :=
  match e key with
  | none => none
  | some raw =>
      let t := jsTrim raw
      if t.isEmpty then none else some t

/-- Result of the `sign` callback in ledger options: the object
`{ signature, signatureKind, publicKey }` built in
`deriveLedgerOptionsFromHederaClient`. -/
structure SignResult where
  signature : String
  signatureKind : String
  publicKey : Option String

/-- `RegistryBrokerLedgerOptions` (ledger credential auth options plus the
plugin's `autoAuthenticate` flag).  Fields not set by this repository's code
stay `none`. -/
structure LedgerOptions where
  accountId : String
  network : Option String := none
  hederaPrivateKey : Option String := none
  autoAuthenticate : Option Bool := none
  label : Option String := none
  sign : Option (String → SignResult) := none

/-- `RegistryBrokerClientOptions` — the subset this code reads or writes. -/
structure ClientOptions where
  baseUrl : Option String := none
  apiKey : Option String := none
  ledgerApiKey : Option String := none

/-- `RegistryBrokerPluginClientOptions` = client options plus the two
`disableEnv*` switches. -/
structure PluginClientOptions extends ClientOptions where
  disableEnvApiKey : Option Bool := none
  disableEnvLedgerApiKey : Option Bool := none

/-- `RegistryBrokerPluginConfiguration`. -/
structure PluginConfiguration where
  client : Option PluginClientOptions := none
  ledger : Option LedgerOptions := none

/-- One of the duck-typed values that may sit in `operator.accountId` /
`operator.publicKey`: a string, an object (with or without a callable
`toString` whose result may or may not be a string), or a missing value. -/
inductive AccountIdValue where
  /-- a primitive string -/
  | str (s : String)
  /-- an object; `toStr = some r` means `'toString' in value` holds and
  `value.toString?.()` yields `r` (`some s` when the result is a string,
  `none` when it is not); `toStr = none` means `'toString' in value` fails -/
  | obj (toStr : Option (Option String))
  /-- `undefined` / `null` -/
  | missing

/-- JavaScript truthiness of an `AccountIdValue` (used by the
`!operator?.accountId` guard): empty strings and missing values are falsy,
every object is truthy. -/
def AccountIdValue.truthy : AccountIdValue → Bool
  | .str s => !s.isEmpty
  | .obj _ => true
  | .missing => false

/-- Source `formatAccountId(value: unknown)`: a string is trimmed and must be
non-empty; an object with `'toString' in value` has `toString?.()` called and
its result, when a string, trimmed and required non-empty; everything else
yields `undefined`. -/
def formatAccountId : AccountIdValue → Option String
  | .str s =>
      let t := jsTrim s
      if t.isEmpty then none else some t
  | .obj (some (some s)) =>
      let t := jsTrim s
      if t.isEmpty then none else some t
  | .obj _ => none
  | .missing => none

/-- `HederaLedgerIdLike`: each probe method may be absent (`none`), may throw
(`some (.error ())`) or return a value already coerced by `Boolean(...)`
(`some (.ok b)`); `toStringFn = some r` means the method exists and returns
`r` (`some s` when a string). -/
structure HederaLedgerIdLike where
  isMainnet : Option (Except Unit Bool) := none
  isPreviewnet : Option (Except Unit Bool) := none
  isTestnet : Option (Except Unit Bool) := none
  toStringFn : Option (Option String) := none

/-- `HederaOperatorLike`: `transactionSigner`, when present, maps message
bytes to signature bytes. -/
structure HederaOperatorLike where
  accountId : AccountIdValue := .missing
  publicKey : AccountIdValue := .missing
  transactionSigner : Option (List Nat → List Nat) := none

/-- `HederaOperatorClient`: `getOperator = none` models a missing (or
non-function) `getOperator`; `some none` a call returning `null`. -/
structure HederaOperatorClientM where
  ledgerId : Option HederaLedgerIdLike := none
  getOperator : Option (Option HederaOperatorLike) := none

/-- Source `invokeLedgerCheck`: absent method or a throwing call count as
`false`; otherwise the boolean-coerced return value. -/
def invokeLedgerCheck : Option (Except Unit Bool) → Bool
  | some (.ok b) => b
  | some (.error _) => false
  | none => false

/-- Source `normaliseHederaNetwork(value?, preferMainnet = false)`:
blank/absent input defaults per `preferMainnet`; otherwise lower-case and
prefix with `hedera:` unless already prefixed. -/
def normaliseHederaNetwork (value : Option String) (preferMainnet : Bool) : String :=
  let raw := jsTrim (value.getD "")
  if raw.isEmpty then
    if preferMainnet then "hedera:mainnet" else "hedera:testnet"
  else
    let lower := jsToLower raw
    if jsStartsWith lower "hedera:" then lower else "hedera:" ++ lower

/-- Source `deriveNetworkFromHederaClient`: probe `isMainnet`,
`isPreviewnet`, `isTestnet` in order, then a non-empty `toString` label,
then the `HEDERA_NETWORK` environment variable. -/
def deriveNetworkFromHederaClient (client : HederaOperatorClientM) (e : Env) : String :=
  match client.ledgerId with
  | some lid =>
      if invokeLedgerCheck lid.isMainnet then "hedera:mainnet"
      else if invokeLedgerCheck lid.isPreviewnet then "hedera:previewnet"
      else if invokeLedgerCheck lid.isTestnet then "hedera:testnet"
      else
        match lid.toStringFn with
        | some (some label) =>
            if label.isEmpty then normaliseHederaNetwork (envGet e "HEDERA_NETWORK") false
            else normaliseHederaNetwork (some label) false
        | _ => normaliseHederaNetwork (envGet e "HEDERA_NETWORK") false
  | none => normaliseHederaNetwork (envGet e "HEDERA_NETWORK") false

/-- UTF-8 encoding of one character (the bytes `Buffer.from(message, 'utf8')`
would produce for it). -/
def utf8EncodeChar (c : Char) : List Nat :=
  let v := c.toNat
  if v < 0x80 then [v]
  else if v < 0x800 then
    [0xC0 ||| (v >>> 6), 0x80 ||| (v &&& 0x3F)]
  else if v < 0x10000 then
    [0xE0 ||| (v >>> 12), 0x80 ||| ((v >>> 6) &&& 0x3F), 0x80 ||| (v &&& 0x3F)]
  else
    [0xF0 ||| (v >>> 18), 0x80 ||| ((v >>> 12) &&& 0x3F),
     0x80 ||| ((v >>> 6) &&& 0x3F), 0x80 ||| (v &&& 0x3F)]

/-- UTF-8 bytes of a string (`Buffer.from(message, 'utf8')`). -/
def utf8Bytes (s : String) : List Nat :=
  s.data.foldr (fun c acc => utf8EncodeChar c ++ acc) []

/-- The base64 alphabet. -/
def base64Alphabet : List Char :=
  "ABCDEFGHIJKLMNOPQRSTUVWXYZabcdefghijklmnopqrstuvwxyz0123456789+/".data

/-- The base64 digit for a 6-bit value. -/
def b64c (n : Nat) : Char := base64Alphabet.getD n '='

/-- Standard base64 of a byte list (`Buffer.from(bytes).toString('base64')`).
Bytes are reduced mod 256 as they are consumed. -/
def base64Encode : List Nat → String
  | [] => ""
  | [a] =>
      let a := a % 256
      String.mk [b64c (a / 4), b64c ((a % 4) * 16), '=', '=']
  | [a, b] =>
      let a := a % 256
      let b := b % 256
      String.mk [b64c (a / 4), b64c ((a % 4) * 16 + b / 16), b64c ((b % 16) * 4), '=']
  | a :: b :: c :: rest =>
      let a2 := a % 256
      let b2 := b % 256
      let c2 := c % 256
      String.mk [b64c (a2 / 4), b64c ((a2 % 4) * 16 + b2 / 16),
                 b64c ((b2 % 16) * 4 + c2 / 64), b64c (c2 % 64)]
        ++ base64Encode rest

/-- Source `deriveLedgerOptionsFromHederaClient`: requires a context client
with a callable `getOperator` returning an operator with a truthy
`accountId`, a `transactionSigner` function and a formattable account id;
otherwise yields nothing (falling back to environment variables).  On
success the options carry the formatted account id, the derived network,
`autoAuthenticate: true`, the fixed label, and the base64 `sign` callback. -/
def deriveLedgerOptionsFromHederaClient
    (ctx : Option HederaOperatorClientM) (e : Env) : Option LedgerOptions :=
  match ctx with
  | none => none
  | some hederaClient =>
      match hederaClient.getOperator with
      | none => none
      | some none => none
      | some (some operator) =>
          if operator.accountId.truthy then
            match operator.transactionSigner with
            | none => none
            | some signer =>
                match formatAccountId operator.accountId with
                | none => none
                | some accountId =>
                    let publicKey := formatAccountId operator.publicKey
                    let network := deriveNetworkFromHederaClient hederaClient e
                    some
                      { accountId := accountId
                        network := some network
                        autoAuthenticate := some true
                        label := some "Hedera Agent Kit operator"
                        sign := some fun message =>
                          { signature := base64Encode (signer (utf8Bytes message))
                            signatureKind := "raw"
                            publicKey := publicKey } }
          else none

/-- Parameters of `pickLedgerEnvSet`. -/
structure LedgerEnvSetParams where
  accountKey : String
  privateKey : String
  fallbackAccountKey : Option String := none
  fallbackPrivateKey : Option String := none
  preferMainnet : Bool

/-- Result of `pickLedgerEnvSet`. -/
structure LedgerEnvSet where
  accountId : String
  privateKey : String
  preferMainnet : Bool
deriving DecidableEq

/-- Source `pickLedgerEnvSet`: read the account id and private key (each with
its per-variable fallback); both must be present (non-empty after
trimming, enforced by `envGet`). -/
def pickLedgerEnvSet (e : Env) (params : LedgerEnvSetParams) : Option LedgerEnvSet :=
  match (envGet e params.accountKey).orElse
          (fun _ => params.fallbackAccountKey.bind (envGet e)),
        (envGet e params.privateKey).orElse
          (fun _ => params.fallbackPrivateKey.bind (envGet e)) with
  | some a, some k => some { accountId := a, privateKey := k, preferMainnet := params.preferMainnet }
  | _, _ => none

/-- The operator env-set parameters used by `deriveLedgerOptionsFromEnv`. -/
def operatorEnvParams : LedgerEnvSetParams :=
  { accountKey := "HEDERA_OPERATOR_ID"
    privateKey := "HEDERA_OPERATOR_KEY"
    fallbackAccountKey := some "HEDERA_ACCOUNT_ID"
    fallbackPrivateKey := some "HEDERA_PRIVATE_KEY"
    preferMainnet := false }

/-- The mainnet env-set parameters used by `deriveLedgerOptionsFromEnv`. -/
def mainnetEnvParams : LedgerEnvSetParams :=
  { accountKey := "MAINNET_HEDERA_ACCOUNT_ID"
    privateKey := "MAINNET_HEDERA_PRIVATE_KEY"
    preferMainnet := true }

/-- Source `deriveLedgerOptionsFromEnv`: the operator set wins over the
mainnet set; the network comes from `HEDERA_NETWORK` normalised with the
selected set's `preferMainnet` default. -/
def deriveLedgerOptionsFromEnv (e : Env) : Option LedgerOptions :=
  match (pickLedgerEnvSet e operatorEnvParams).orElse
          (fun _ => pickLedgerEnvSet e mainnetEnvParams) with
  | none => none
  | some selected =>
      some
        { accountId := selected.accountId
          hederaPrivateKey := some selected.privateKey
          network := some (normaliseHederaNetwork (envGet e "HEDERA_NETWORK") selected.preferMainnet) }

/-- Source `normalizeLedgerConfig`: a falsy (absent or empty) network is
left untouched; otherwise the network is normalised. -/
def normalizeLedgerConfig (ledger : LedgerOptions) : LedgerOptions :=
  match ledger.network with
  | none => ledger
  | some n =>
      if n.isEmpty then ledger
      else { ledger with network := some (normaliseHederaNetwork (some n) false) }

/-- Source `resolveLedgerOptions`: explicit config first, then the Hedera
client, then the environment. -/
def resolveLedgerOptions (config : Option PluginConfiguration)
    (ctx : Option HederaOperatorClientM) (e : Env) : Option LedgerOptions :=
  match config.bind (·.ledger) with
  | some ledger => some (normalizeLedgerConfig ledger)
  | none =>
      match deriveLedgerOptionsFromHederaClient ctx e with
      | some hederaDerived => some hederaDerived
      | none => deriveLedgerOptionsFromEnv e

/-- Source `normalizeSecret`: falsy input (including the empty string) or a
whitespace-only value yields `undefined`; otherwise the trimmed value. -/
def normalizeSecret (value : Option String) : Option String :=
  match value with
  | none => none
  | some s =>
      if s.isEmpty then none
      else
        let trimmed := jsTrim s
        if trimmed.isEmpty then none else some trimmed

/-- Source `buildClientOptions`: config client overrides merged with the
`REGISTRY_BROKER_BASE_URL`, `REGISTRY_BROKER_API_KEY` and
`REGISTRY_BROKER_LEDGER_KEY` environment variables, the latter two gated by
the `disableEnv*` switches. -/
def buildClientOptions (config : Option PluginConfiguration) (e : Env) : ClientOptions :=
  let clientOverrides := (config.bind (·.client)).getD {}
  let baseUrl := (clientOverrides.baseUrl.orElse
    fun _ => envGet e "REGISTRY_BROKER_BASE_URL").orElse fun _ => clientOverrides.baseUrl
  let apiKey0 := normalizeSecret clientOverrides.apiKey
  let apiKey :=
    if apiKey0.isNone && !(clientOverrides.disableEnvApiKey == some true) then
      normalizeSecret (envGet e "REGISTRY_BROKER_API_KEY")
    else apiKey0
  let ledgerApiKey0 := normalizeSecret clientOverrides.ledgerApiKey
  let ledgerApiKey :=
    if ledgerApiKey0.isNone && !(clientOverrides.disableEnvLedgerApiKey == some true) then
      normalizeSecret (envGet e "REGISTRY_BROKER_LEDGER_KEY")
    else ledgerApiKey0
  { baseUrl := baseUrl, apiKey := apiKey, ledgerApiKey := ledgerApiKey }

/-- `{ autoAuthenticate, ...authOptions } = ledgerConfig` — the options
passed to `authenticateWithLedgerCredentials` have the `autoAuthenticate`
field removed. -/
def stripAutoAuthenticate (l : LedgerOptions) : LedgerOptions :=
  { l with autoAuthenticate := none }

/-- Observable outcome of `initialiseClient`: the client options the factory
received, the argument list of `authenticateWithLedgerCredentials` calls,
and whether the missing-credentials warning fired. -/
structure InitOutcome where
  clientOptions : ClientOptions
  authCalls : List LedgerOptions
  warnedNoCredentials : Bool

/-- Source `initialiseClient`: build options, create the client, resolve
ledger options; authenticate unless `autoAuthenticate === false`; with no
ledger options, warn exactly when no `apiKey` was resolved either. -/
def initialiseClient (config : Option PluginConfiguration)
    (ctx : Option HederaOperatorClientM) (e : Env) : InitOutcome :=
  let options := buildClientOptions config e
  match resolveLedgerOptions config ctx e with
  | some ledgerConfig =>
      if ledgerConfig.autoAuthenticate == some false then
        { clientOptions := options, authCalls := [], warnedNoCredentials := false }
      else
        { clientOptions := options
          authCalls := [stripAutoAuthenticate ledgerConfig]
          warnedNoCredentials := false }
  | none =>
      { clientOptions := options, authCalls := [], warnedNoCredentials := options.apiKey.isNone }

/-- Source `getClient`: memoise `initialiseClient` in `clientPromise`.
Returns the produced client outcome, the new cache, and whether
initialisation ran on this call. -/
def getClientStep (config : Option PluginConfiguration) (e : Env)
    (cached : Option InitOutcome) (ctx : Option HederaOperatorClientM) :
    InitOutcome × Option InitOutcome × Bool :=
  match cached with
  | some c => (c, some c, false)
  | none =>
      let c := initialiseClient config ctx e
      (c, some c, true)

/-- A sequence of `getClient` calls on one provider: the list of returned
clients and how many times `initialiseClient` ran. -/
def runGetClients (config : Option PluginConfiguration) (e : Env)
    (cached : Option InitOutcome) :
    List (Option HederaOperatorClientM) → List InitOutcome × Nat
  | [] => ([], 0)
  | ctx :: rest =>
      let step := getClientStep config e cached ctx
      let tail := runGetClients config e step.2.1 rest
      (step.1 :: tail.1, (if step.2.2 then 1 else 0) + tail.2)

/-! ## Operation tool: JS values and zod-style schemas -/

/-- A first-order JavaScript value (function-valued fields are represented
separately, see `ConversationHandle`).  Numbers are modelled as integers;
no claim depends on non-integral numerics. -/
inductive JSValue where
  | vNull
  | vUndefined
  | vBool (b : Bool)
  | vNum (n : Int)
  | vStr (s : String)
  | vArr (elems : List JSValue)
  | vObj (fields : List (String × JSValue))

/-- Field lookup in an object field list (first match wins, as in the
assoc-list representation of a JS object). -/
def jlookup (fields : List (String × JSValue)) (key : String) : Option JSValue :=
  (fields.find? fun p => p.1 == key).map (·.2)

/-- `value[key]` on an object, `undefined` otherwise. -/
def jget (v : JSValue) (key : String) : JSValue :=
  match v with
  | .vObj fields => (jlookup fields key).getD .vUndefined
  | _ => .vUndefined

/-- `x ?? {}` — nullish coalescing to the empty object. -/
def nullishToEmptyObject (v : JSValue) : JSValue :=
  match v with
  | .vUndefined => .vObj []
  | .vNull => .vObj []
  | v => v

/-- Is the value `undefined`? -/
def JSValue.isUndef : JSValue → Bool
  | .vUndefined => true
  | _ => false

/-- `typeof value === 'object' && value !== null` (arrays are objects). -/
def isObjectLike : JSValue → Bool
  | .vObj _ => true
  | .vArr _ => true
  | _ => false

/-- A zod-style parser: either a validation error message or the parsed
value. -/
def Schema : Type := JSValue → Except String JSValue

/-- `z.string()`. -/
def zString : Schema := fun v =>
  match v with
  | .vStr _ => .ok v
  | .vUndefined => .error "Required"
  | _ => .error "Expected string"

/-- Source `nonEmptyString(label)`: a required, non-empty string with the
labelled messages. -/
def nonEmptyStringS (label : String) : Schema := fun v =>
  match v with
  | .vStr s => if s.isEmpty then .error (label ++ " cannot be empty") else .ok v
  | .vUndefined => .error (label ++ " is required")
  | _ => .error (label ++ " must be a string")

/-- Source `objectLike(label)`: `z.custom` accepting any non-null value of
type `object` (including arrays). -/
def objectLikeS (label : String) : Schema := fun v =>
  if isObjectLike v then .ok v else .error (label ++ " must be an object")

/-- `z.boolean()`. -/
def zBool : Schema := fun v =>
  match v with
  | .vBool _ => .ok v
  | .vUndefined => .error "Required"
  | _ => .error "Expected boolean"

/-- `z.number().int().positive()`. -/
def zNumberIntPositive : Schema := fun v =>
  match v with
  | .vNum n => if 0 < n then .ok v else .error "Number must be greater than 0"
  | .vUndefined => .error "Required"
  | _ => .error "Expected number"

/-- `z.number().min(lo).max(hi)`. -/
def zNumberRange (lo hi : Int) : Schema := fun v =>
  match v with
  | .vNum n => if lo ≤ n ∧ n ≤ hi then .ok v else .error "Number out of range"
  | .vUndefined => .error "Required"
  | _ => .error "Expected number"

/-- `z.enum(values)`. -/
def zEnum (values : List String) : Schema := fun v =>
  match v with
  | .vStr s => if values.contains s then .ok v else .error "Invalid enum value"
  | .vUndefined => .error "Required"
  | _ => .error "Expected string"

/-- `z.union([z.string(), z.number(), z.boolean()])` (the metadata value
element type). -/
def zStrNumBool : Schema := fun v =>
  match v with
  | .vStr _ => .ok v
  | .vNum _ => .ok v
  | .vBool _ => .ok v
  | _ => .error "Invalid union input"

/-- Element-wise parse of an array body. -/
def traverseSchema (p : Schema) : List JSValue → Except String (List JSValue)
  | [] => .ok []
  | x :: xs =>
      match p x with
      | .error m => .error m
      | .ok y => (traverseSchema p xs).map fun ys => y :: ys

/-- `z.array(p)`. -/
def zArrayOf (p : Schema) : Schema := fun v =>
  match v with
  | .vArr xs => (traverseSchema p xs).map JSValue.vArr
  | .vUndefined => .error "Required"
  | _ => .error "Expected array"

/-- Value-wise parse of a record body. -/
def traverseRecord (p : Schema) : List (String × JSValue) → Except String (List (String × JSValue))
  | [] => .ok []
  | (k, x) :: xs =>
      match p x with
      | .error m => .error m
      | .ok y => (traverseRecord p xs).map fun ys => (k, y) :: ys

/-- `z.record(p)`. -/
def zRecordOf (p : Schema) : Schema := fun v =>
  match v with
  | .vObj fields => (traverseRecord p fields).map JSValue.vObj
  | .vUndefined => .error "Required"
  | _ => .error "Expected object"

/-- `.optional()` on a whole schema (accept `undefined` unchanged). -/
def zOptionalSchema (p : Schema) : Schema := fun v =>
  match v with
  | .vUndefined => .ok .vUndefined
  | v => p v

/-- A field of a `z.object` schema: given the field's value (`vUndefined`
when the key is absent), either fail or produce `none` (key omitted from the
output) or the parsed value. -/
def FieldSchema : Type := JSValue → Except String (Option JSValue)

/-- `.optional()` field: an absent/undefined value is dropped. -/
def zOptField (p : Schema) : FieldSchema := fun v =>
  match v with
  | .vUndefined => .ok none
  | v => (p v).map some

/-- A required field: the inner schema sees `undefined` for an absent key
and produces its own required-error. -/
def zReqField (p : Schema) : FieldSchema := fun v => (p v).map some

/-- Parse the declared fields of a `z.object` against an input field list,
producing the output fields in declaration order. -/
def parseFields (input : List (String × JSValue)) :
    List (String × FieldSchema) → Except String (List (String × JSValue))
  | [] => .ok []
  | (key, fs) :: rest =>
      match fs ((jlookup input key).getD .vUndefined) with
      | .error m => .error m
      | .ok none => parseFields input rest
      | .ok (some v) => (parseFields input rest).map fun vs => (key, v) :: vs

/-- `z.object(fields)` (with `.strict()` when `strict`): requires a plain
object, rejects unknown keys when strict, strips them otherwise. -/
def zObjectWith (strict : Bool) (fields : List (String × FieldSchema)) : Schema := fun v =>
  match v with
  | .vObj input =>
      if strict && input.any (fun p => !(fields.any fun f => f.1 == p.1)) then
        .error "Unrecognized key in object"
      else (parseFields input fields).map JSValue.vObj
  | .vUndefined => .error "Required"
  | _ => .error "Expected object"

/-- Non-strict `z.object`. -/
def zObject (fields : List (String × FieldSchema)) : Schema := zObjectWith false fields

/-- Strict `z.object(...).strict()`. -/
def zObjectStrict (fields : List (String × FieldSchema)) : Schema := zObjectWith true fields

/-! ### The schemas declared in RegistryBrokerOperationTool.ts -/

/-- Source `registrySearchParamsSchema` (all fields optional). -/
def registrySearchParamsSchema : Schema := zObject
  [("q", zOptField zString),
   ("page", zOptField zNumberIntPositive),
   ("limit", zOptField zNumberIntPositive),
   ("registry", zOptField zString),
   ("registries", zOptField (zArrayOf zString)),
   ("capabilities", zOptField (zArrayOf zString)),
   ("protocols", zOptField (zArrayOf zString)),
   ("minTrust", zOptField (zNumberRange 0 100)),
   ("adapters", zOptField (zArrayOf zString)),
   ("sortBy", zOptField zString),
   ("sortOrder", zOptField (zEnum ["asc", "desc"])),
   ("type", zOptField zString),
   ("verified", zOptField zBool),
   ("online", zOptField zBool),
   ("metadata", zOptField (zRecordOf (zArrayOf zStrNumBool)))]

/-- Source `conversationSendSchema`. -/
def conversationSendSchema : Schema := zObject
  [("handleId", zReqField (nonEmptyStringS "handleId")),
   ("payload", zReqField (objectLikeS "payload"))]

/-- Source `conversationDecryptSchema`. -/
def conversationDecryptSchema : Schema := zObject
  [("handleId", zReqField (nonEmptyStringS "handleId")),
   ("entry", zReqField (objectLikeS "entry"))]

/-- Source `conversationReleaseSchema`. -/
def conversationReleaseSchema : Schema := zObject
  [("handleId", zReqField (nonEmptyStringS "handleId"))]

/-- Source `registerAgentSchema`. -/
def registerAgentSchema : Schema := zObject
  [("payload", zReqField (objectLikeS "registerAgentPayload")),
   ("options", zOptField (objectLikeS "registerAgentOptions"))]

/-- Source `updateAgentSchema`. -/
def updateAgentSchema : Schema := zObject
  [("uaid", zReqField (nonEmptyStringS "uaid")),
   ("request", zReqField (objectLikeS "request"))]

/-- Source `waitForRegistrationSchema`. -/
def waitForRegistrationSchema : Schema := zObject
  [("attemptId", zReqField (nonEmptyStringS "attemptId")),
   ("options", zOptField (objectLikeS "options"))]

/-- Source `registryNamespaceSchema`. -/
def registryNamespaceSchema : Schema := zObject
  [("registry", zReqField (nonEmptyStringS "registry")),
   ("namespace", zReqField (nonEmptyStringS "namespace"))]

/-- Source `chatHistorySchema`. -/
def chatHistorySchema : Schema := zObject
  [("sessionId", zReqField (nonEmptyStringS "sessionId")),
   ("options", zOptField (objectLikeS "historyOptions"))]

/-- Source `submitHandshakeSchema`. -/
def submitHandshakeSchema : Schema := zObject
  [("sessionId", zReqField (nonEmptyStringS "sessionId")),
   ("payload", zReqField (objectLikeS "handshakePayload"))]

/-- Source `setDefaultHeaderSchema`. -/
def setDefaultHeaderSchema : Schema := zObject
  [("name", zReqField (nonEmptyStringS "name")),
   ("value", zOptField zString)]

/-- Source `generateKeyPairSchema`. -/
def generateKeyPairSchema : Schema := zOptionalSchema (zObject
  [("keyType", zOptField (zEnum ["secp256k1"])),
   ("envVar", zOptField zString),
   ("envPath", zOptField zString),
   ("overwrite", zOptField zBool)])

/-- Source `initializeAgentSchema`. -/
def initializeAgentSchema : Schema := objectLikeS "initializeAgentOptions"

/-! ## Conversation handles, client oracle, dispatch -/

mutual

/-- Outcome of an SDK client method or a conversation-handle method:
a value, a thrown `RegistryBrokerParseError` (message plus optional
`rawValue`), or any other thrown error. -/
inductive ClientResult where
  | ok (v : RVal)
  | parseError (msg : String) (raw : Option JSValue)
  | err (msg : String)

/-- A value returned by the SDK: a first-order value, or a conversation
handle (the only function-bearing shape the tool inspects —
`isConversationHandle` recognises exactly objects with a string
`sessionId` and callable `send` / `decryptHistoryEntry`). -/
inductive RVal where
  | plain (v : JSValue)
  | handle (h : ConversationHandle)

/-- A `ChatConversationHandle`: the fields the store and the tool use. -/
inductive ConversationHandle where
  | mk (sessionId : String) (mode : String) (summary : Option JSValue)
      (send : JSValue → ClientResult)
      (decryptHistoryEntry : JSValue → ClientResult)

end

/-- `handle.sessionId`. -/
def ConversationHandle.sessionId : ConversationHandle → String
  | .mk s _ _ _ _ => s

/-- `handle.mode`. -/
def ConversationHandle.mode : ConversationHandle → String
  | .mk _ m _ _ _ => m

/-- `handle.summary` (`none` = absent/undefined). -/
def ConversationHandle.summary : ConversationHandle → Option JSValue
  | .mk _ _ s _ _ => s

/-- `handle.send(payload)`. -/
def ConversationHandle.send : ConversationHandle → JSValue → ClientResult
  | .mk _ _ _ f _ => f

/-- `handle.decryptHistoryEntry(entry)`. -/
def ConversationHandle.decryptHistoryEntry : ConversationHandle → JSValue → ClientResult
  | .mk _ _ _ _ f => f

/-- The conversation store's map (`Map<string, ChatConversationHandle>`),
newest binding first. -/
def HandleStore : Type := List (String × ConversationHandle)

/-- `handles.get(handleId)`. -/
def storeGet (s : HandleStore) (handleId : String) : Option ConversationHandle :=
  (s.find? fun p => p.1 == handleId).map (·.2)

/-- `handles.set(handleId, handle)` (overwrite semantics). -/
def storeSet (s : HandleStore) (handleId : String) (h : ConversationHandle) : HandleStore :=
  (handleId, h) :: s.filter fun p => !(p.1 == handleId)

/-- `handles.delete(handleId)`: whether the key existed, and the map
without it. -/
def storeRelease (s : HandleStore) (handleId : String) : Bool × HandleStore :=
  ((storeGet s handleId).isSome, s.filter fun p => !(p.1 == handleId))

/-- The tool's mutable state: the conversation store plus the counter fed
to the abstract handle-id generator (standing in for `crypto.randomUUID`). -/
structure ExecState where
  store : HandleStore
  nextHandleIdx : Nat

/-- An error surfaced by `execute`: a zod validation failure, an `Error`
thrown by this code (with its message), or a non-parse error propagated
from the SDK client. -/
inductive ExecError where
  | validation (msg : String)
  | thrown (msg : String)
  | clientError (msg : String)

/-- The observable outcome of one `execute` call: the resolved value or
thrown error, the updated tool state, whether a broker client was obtained
(`clientProvider.getClient` reached), and the client method invocations
`(path, args)` performed. -/
structure ExecOutcome where
  result : Except ExecError JSValue
  state : ExecState
  gotClient : Bool
  calls : List (String × List JSValue)

/-- The SDK client as an oracle: for a method path, `none` models a
non-function target (`resolveTarget` walk failed), `some f` a callable
method. -/
structure RegistryBrokerClientM where
  methods : String → Option (List JSValue → ClientResult)

/-- Oracle for the static `RegistryBrokerClient.initializeAgent`: its
result's `encryption` field and `client.getDefaultHeaders()` value, or a
thrown error. -/
inductive InitAgentOutcome where
  | ok (encryption : Option JSValue) (defaultHeaders : JSValue)
  | parseError (msg : String) (raw : Option JSValue)
  | err (msg : String)

/-- An entry of `OPERATION_DEFINITIONS` (the `custom` shape exists in the
source type but the table declares none). -/
inductive OpDef where
  | noArgs (path : String)
  | stringArg (path field : String) (optional : Bool)
  | objectArg (path : String) (schema : Schema)
  | tupleArg (path : String) (schema : Schema) (mapArgs : JSValue → List JSValue)
  | custom (schema : Schema) (handler : JSValue → ClientResult)

/-- Source `conversationOperations` / `CONVERSATION_OPERATIONS`. -/
def CONVERSATION_OPERATIONS : List String :=
  ["conversation.send", "conversation.decryptHistoryEntry", "conversation.release"]

/-- `CONVERSATION_OPERATIONS.has(operation)`. -/
def isConversationOperation (operation : String) : Bool :=
  CONVERSATION_OPERATIONS.contains operation

/-- Source `OPERATION_DEFINITIONS` — the full dispatch table. -/
def OPERATION_DEFINITIONS : String → Option OpDef := fun operation =>
  match operation with
  | "stats" => some (.noArgs "stats")
  | "registries" => some (.noArgs "registries")
  | "getAdditionalRegistries" => some (.noArgs "getAdditionalRegistries")
  | "popularSearches" => some (.noArgs "popularSearches")
  | "adapters" => some (.noArgs "adapters")
  | "adaptersDetailed" => some (.noArgs "adaptersDetailed")
  | "listProtocols" => some (.noArgs "listProtocols")
  | "searchStatus" => some (.noArgs "searchStatus")
  | "websocketStats" => some (.noArgs "websocketStats")
  | "metricsSummary" => some (.noArgs "metricsSummary")
  | "dashboardStats" => some (.noArgs "dashboardStats")
  | "getX402Minimums" => some (.noArgs "getX402Minimums")
  | "encryptionReady" => some (.noArgs "encryptionReady")
  | "getDefaultHeaders" => some (.noArgs "getDefaultHeaders")
  | "setApiKey" => some (.stringArg "setApiKey" "apiKey" true)
  | "setLedgerApiKey" => some (.stringArg "setLedgerApiKey" "apiKey" true)
  | "resolveUaid" => some (.stringArg "resolveUaid" "uaid" false)
  | "validateUaid" => some (.stringArg "validateUaid" "uaid" false)
  | "getUaidConnectionStatus" => some (.stringArg "getUaidConnectionStatus" "uaid" false)
  | "closeUaidConnection" => some (.stringArg "closeUaidConnection" "uaid" false)
  | "facets" => some (.stringArg "facets" "adapter" true)
  | "search" => some (.objectArg "search" registrySearchParamsSchema)
  | "vectorSearch" => some (.objectArg "vectorSearch" (objectLikeS "vectorSearchRequest"))
  | "registrySearchByNamespace" =>
      some (.tupleArg "registrySearchByNamespace" registryNamespaceSchema
        fun p => [jget p "registry", jget p "namespace"])
  | "registerAgent" =>
      some (.tupleArg "registerAgent" registerAgentSchema
        fun p => [jget p "payload", jget p "options"])
  | "getRegistrationQuote" =>
      some (.objectArg "getRegistrationQuote" (objectLikeS "getRegistrationQuotePayload"))
  | "updateAgent" =>
      some (.tupleArg "updateAgent" updateAgentSchema
        fun p => [jget p "uaid", jget p "request"])
  | "getRegistrationProgress" => some (.stringArg "getRegistrationProgress" "attemptId" false)
  | "waitForRegistrationCompletion" =>
      some (.tupleArg "waitForRegistrationCompletion" waitForRegistrationSchema
        fun p => [jget p "attemptId", jget p "options"])
  | "purchaseCreditsWithHbar" =>
      some (.objectArg "purchaseCreditsWithHbar" (objectLikeS "purchaseCreditsWithHbar"))
  | "purchaseCreditsWithX402" =>
      some (.objectArg "purchaseCreditsWithX402" (objectLikeS "purchaseCreditsWithX402"))
  | "buyCreditsWithX402" =>
      some (.objectArg "buyCreditsWithX402" (objectLikeS "buyCreditsWithX402"))
  | "createLedgerChallenge" =>
      some (.objectArg "createLedgerChallenge" (objectLikeS "ledgerChallenge"))
  | "verifyLedgerChallenge" =>
      some (.objectArg "verifyLedgerChallenge" (objectLikeS "ledgerVerifyRequest"))
  | "authenticateWithLedger" =>
      some (.objectArg "authenticateWithLedger" (objectLikeS "ledgerCredentialAuth"))
  | "authenticateWithLedgerCredentials" =>
      some (.objectArg "authenticateWithLedgerCredentials" (objectLikeS "ledgerCredentialAuth"))
  | "detectProtocol" => some (.objectArg "detectProtocol" (objectLikeS "detectProtocol"))
  | "setDefaultHeader" =>
      some (.tupleArg "setDefaultHeader" setDefaultHeaderSchema
        fun p => [jget p "name", jget p "value"])
  | "chat.start" => some (.objectArg "chat.start" (objectLikeS "startChatOptions"))
  | "chat.createSession" =>
      some (.objectArg "chat.createSession" (objectLikeS "createSessionPayload"))
  | "chat.sendMessage" =>
      some (.objectArg "chat.sendMessage" (objectLikeS "sendMessagePayload"))
  | "chat.endSession" => some (.stringArg "chat.endSession" "sessionId" false)
  | "chat.getHistory" =>
      some (.tupleArg "chat.getHistory" chatHistorySchema
        fun p => [jget p "sessionId", jget p "options"])
  | "chat.compactHistory" =>
      some (.objectArg "chat.compactHistory" (objectLikeS "compactHistoryPayload"))
  | "chat.getEncryptionStatus" => some (.stringArg "chat.getEncryptionStatus" "sessionId" false)
  | "chat.submitEncryptionHandshake" =>
      some (.tupleArg "chat.submitEncryptionHandshake" submitHandshakeSchema
        fun p => [jget p "sessionId", jget p "payload"])
  | "chat.createEncryptedSession" =>
      some (.objectArg "chat.createEncryptedSession" (objectLikeS "startEncryptedSessionOptions"))
  | "chat.acceptEncryptedSession" =>
      some (.objectArg "chat.acceptEncryptedSession" (objectLikeS "acceptEncryptedSessionOptions"))
  | "chat.startConversation" =>
      some (.objectArg "chat.startConversation" (objectLikeS "startConversationOptions"))
  | "chat.acceptConversation" =>
      some (.objectArg "chat.acceptConversation" (objectLikeS "acceptConversationOptions"))
  | "encryption.registerKey" =>
      some (.objectArg "encryption.registerKey" (objectLikeS "registerEncryptionKeyPayload"))
  | "encryption.generateEphemeralKeyPair" =>
      some (.noArgs "encryption.generateEphemeralKeyPair")
  | "encryption.deriveSharedSecret" =>
      some (.objectArg "encryption.deriveSharedSecret" (objectLikeS "deriveSharedSecretOptions"))
  | "encryption.encryptCipherEnvelope" =>
      some (.objectArg "encryption.encryptCipherEnvelope" (objectLikeS "encryptCipherEnvelopeOptions"))
  | "encryption.decryptCipherEnvelope" =>
      some (.objectArg "encryption.decryptCipherEnvelope" (objectLikeS "decryptCipherEnvelopeOptions"))
  | "encryption.ensureAgentKey" =>
      some (.objectArg "encryption.ensureAgentKey" (objectLikeS "ensureAgentKeyOptions"))
  | "generateEncryptionKeyPair" =>
      some (.objectArg "generateEncryptionKeyPair" generateKeyPairSchema)
  | _ => none

/-- `String(x)` for the values reachable at the `String(parsed.handleId)`
call sites (the schema guarantees a string; other shapes are unreachable
there and collapse to a default). -/
def jsToString : JSValue → String
  | .vStr s => s
  | .vBool b => if b then "true" else "false"
  | .vNull => "null"
  | .vUndefined => "undefined"
  | .vNum n => toString n
  | _ => ""

/-- `storeRegister`: the store's `register` — create an id from the
counter, set it, return the id and new state
(`{handleId, sessionId, mode, summary: handle.summary ?? null}` is built by
the caller `mapResult`). -/
def storeRegister (genId : Nat → String) (st : ExecState) (h : ConversationHandle) :
    String × ExecState :=
  let handleId := genId st.nextHandleIdx
  (handleId, { store := storeSet st.store handleId h, nextHandleIdx := st.nextHandleIdx + 1 })

/-- Source `mapResult`: a conversation handle is registered and replaced by
`{handleId, sessionId, mode, summary: summary ?? null}`; any other value
passes through (the `getDefaultHeaders` object branch of the source returns
the result unchanged, as the default branch does). -/
def mapResult (genId : Nat → String) (st : ExecState) :
    RVal → JSValue × ExecState
  | .handle h =>
      let reg := storeRegister genId st h
      (.vObj [("handleId", .vStr reg.1),
              ("sessionId", .vStr h.sessionId),
              ("mode", .vStr h.mode),
              ("summary", h.summary.getD .vNull)], reg.2)
  | .plain v => (v, st)

/-- Source `wrapResult`: `{success: true, operation, result}`. -/
def wrapResult (operation : String) (mapped : JSValue) : JSValue :=
  .vObj [("success", .vBool true), ("operation", .vStr operation), ("result", mapped)]

/-- The `catch (RegistryBrokerParseError)` success shape:
`{success: true, operation, result: {parsed: false, error, raw: rawValue ?? null}}`. -/
def parseFailureObj (operation msg : String) (raw : Option JSValue) : JSValue :=
  .vObj [("success", .vBool true), ("operation", .vStr operation),
         ("result", .vObj [("parsed", .vBool false), ("error", .vStr msg),
                           ("raw", raw.getD .vNull)])]

/-- Complete a dispatched call: wrap an `ok` value through `mapResult`,
convert a `RegistryBrokerParseError` into the parse-failure success shape
(the `catch` in `execute`), and propagate any other error. -/
def finishResult (genId : Nat → String) (operation : String) (st : ExecState)
    (gotClient : Bool) (calls : List (String × List JSValue)) :
    ClientResult → ExecOutcome
  | .ok v =>
      let mapped := mapResult genId st v
      { result := .ok (wrapResult operation mapped.1), state := mapped.2
        gotClient := gotClient, calls := calls }
  | .parseError m raw =>
      { result := .ok (parseFailureObj operation m raw), state := st
        gotClient := gotClient, calls := calls }
  | .err m =>
      { result := .error (.clientError m), state := st
        gotClient := gotClient, calls := calls }

/-- Source `handleConversationOperation` (plus the wrapping `execute` does
around it): validate, look the handle up, call it; `release` delegates to
the store. -/
def handleConversation (genId : Nat → String) (st : ExecState)
    (operation : String) (payload : JSValue) : ExecOutcome :=
  match operation with
  | "conversation.send" =>
      match conversationSendSchema (nullishToEmptyObject payload) with
      | .error m => { result := .error (.validation m), state := st, gotClient := false, calls := [] }
      | .ok parsed =>
          let handleId := jsToString (jget parsed "handleId")
          match storeGet st.store handleId with
          | none =>
              { result := .error (.thrown ("Conversation handle not found: " ++ handleId))
                state := st, gotClient := false, calls := [] }
          | some h =>
              finishResult genId operation st false [] (h.send (jget parsed "payload"))
  | "conversation.decryptHistoryEntry" =>
      match conversationDecryptSchema (nullishToEmptyObject payload) with
      | .error m => { result := .error (.validation m), state := st, gotClient := false, calls := [] }
      | .ok parsed =>
          let handleId := jsToString (jget parsed "handleId")
          match storeGet st.store handleId with
          | none =>
              { result := .error (.thrown ("Conversation handle not found: " ++ handleId))
                state := st, gotClient := false, calls := [] }
          | some h =>
              finishResult genId operation st false [] (h.decryptHistoryEntry (jget parsed "entry"))
  | "conversation.release" =>
      match conversationReleaseSchema (nullishToEmptyObject payload) with
      | .error m => { result := .error (.validation m), state := st, gotClient := false, calls := [] }
      | .ok parsed =>
          let handleId := jsToString (jget parsed "handleId")
          let rel := storeRelease st.store handleId
          finishResult genId operation { st with store := rel.2 } false []
            (.ok (.plain (.vBool rel.1)))
  | _ =>
      { result := .error (.thrown ("Unsupported conversation operation: " ++ operation))
        state := st, gotClient := false, calls := [] }

/-- Source `handleInitializeAgent` (plus the wrapping in `execute`): parse
against `initializeAgentSchema`, run the static initializer, return
`{encryption: encryption ?? null, defaultHeaders}`. -/
def execInitializeAgent (initAgent : JSValue → InitAgentOutcome) (genId : Nat → String)
    (st : ExecState) (operation : String) (payload : JSValue) : ExecOutcome :=
  match initializeAgentSchema (nullishToEmptyObject payload) with
  | .error m => { result := .error (.validation m), state := st, gotClient := false, calls := [] }
  | .ok parsed =>
      match initAgent parsed with
      | .ok encryption defaultHeaders =>
          finishResult genId operation st false []
            (.ok (.plain (.vObj [("encryption", encryption.getD .vNull),
                                 ("defaultHeaders", defaultHeaders)])))
      | .parseError m raw =>
          { result := .ok (parseFailureObj operation m raw), state := st
            gotClient := false, calls := [] }
      | .err m =>
          { result := .error (.clientError m), state := st, gotClient := false, calls := [] }

/-- The effective payload of a string-kind definition:
`definition.optional && payload === undefined ? {} : (payload ?? {})`. -/
def stringEffectivePayload (optional : Bool) (payload : JSValue) : JSValue :=
  if optional && payload.isUndef then .vObj [] else nullishToEmptyObject payload

/-- The inline strict schema built for a string-kind definition. -/
def stringArgSchema (field : String) (optional : Bool) : Schema :=
  zObjectStrict
    [(field, if optional then zOptField zString else zReqField (nonEmptyStringS field))]

/-- Resolve the target method, validate, invoke: the method-kind tail of
`execute` (`getClient` has been reached, so `gotClient` is true in every
outcome). -/
def execMethodCall (client : RegistryBrokerClientM) (genId : Nat → String)
    (st : ExecState) (operation path : String)
    (argsE : Except String (List JSValue)) : ExecOutcome :=
  match client.methods path with
  | none =>
      { result := .error (.thrown ("Method \"" ++ path ++ "\" is unavailable on the client"))
        state := st, gotClient := true, calls := [] }
  | some f =>
      match argsE with
      | .error m => { result := .error (.validation m), state := st, gotClient := true, calls := [] }
      | .ok args => finishResult genId operation st true [(path, args)] (f args)

/-- Dispatch one table definition (the per-kind branches of `execute`). -/
def execDefinition (client : RegistryBrokerClientM) (genId : Nat → String)
    (st : ExecState) (operation : String) (payload : JSValue) : OpDef → ExecOutcome
  | .custom schema handler =>
      match schema payload with
      | .error m => { result := .error (.validation m), state := st, gotClient := false, calls := [] }
      | .ok parsed => finishResult genId operation st false [] (handler parsed)
  | .noArgs path => execMethodCall client genId st operation path (.ok [])
  | .stringArg path field optional =>
      execMethodCall client genId st operation path
        ((stringArgSchema field optional (stringEffectivePayload optional payload)).map
          fun parsed => [jget parsed field])
  | .objectArg path schema =>
      execMethodCall client genId st operation path
        ((schema (nullishToEmptyObject payload)).map fun parsed => [parsed])
  | .tupleArg path schema mapArgs =>
      execMethodCall client genId st operation path
        ((schema (nullishToEmptyObject payload)).map mapArgs)

/-- The table lookup and unsupported-operation branch of `execute`. -/
def execTableOperation (defs : String → Option OpDef) (client : RegistryBrokerClientM)
    (genId : Nat → String) (st : ExecState) (operation : String) (payload : JSValue) :
    ExecOutcome :=
  match defs operation with
  | none =>
      { result := .error (.thrown ("Unsupported registry broker operation: " ++ operation))
        state := st, gotClient := false, calls := [] }
  | some d => execDefinition client genId st operation payload d

/-- The body of `execute` after input parsing: conversation operations
first, then `initializeAgent`, then the definition table. -/
def executeParsed (defs : String → Option OpDef) (client : RegistryBrokerClientM)
    (initAgent : JSValue → InitAgentOutcome) (genId : Nat → String)
    (st : ExecState) (operation : String) (payload : JSValue) : ExecOutcome :=
  if isConversationOperation operation then handleConversation genId st operation payload
  else if operation == "initializeAgent" then
    execInitializeAgent initAgent genId st operation payload
  else execTableOperation defs client genId st operation payload

/-- `registryBrokerInputSchema.parse(rawInput)`: an object with a string
`operation` and arbitrary optional `payload`. -/
def parseToolInput (v : JSValue) : Except String (String × JSValue) :=
  match v with
  | .vObj fields =>
      match jlookup fields "operation" with
      | some (.vStr s) => .ok (s, (jlookup fields "payload").getD .vUndefined)
      | some _ => .error "operation must be a string"
      | none => .error "operation is required"
  | _ => .error "Expected object"

/-- Source `execute`: parse the tool input (failures propagate untouched),
then dispatch. -/
def execute (defs : String → Option OpDef) (client : RegistryBrokerClientM)
    (initAgent : JSValue → InitAgentOutcome) (genId : Nat → String)
    (st : ExecState) (rawInput : JSValue) : ExecOutcome :=
  match parseToolInput rawInput with
  | .error m => { result := .error (.validation m), state := st, gotClient := false, calls := [] }
  | .ok parsed => executeParsed defs client initAgent genId st parsed.1 parsed.2

/-! ## Concrete fixtures used by the evaluation witnesses -/

/-- An empty environment. -/
def envEmpty : Env := fun _ => none

/-- An environment carrying the operator credential pair (padded, to
exercise trimming) plus a mainnet pair that must lose the precedence race. -/
def envOperator : Env := fun key =>
  if key = "HEDERA_OPERATOR_ID" then some " 0.0.1001 "
  else if key = "HEDERA_OPERATOR_KEY" then some "operator-key"
  else if key = "MAINNET_HEDERA_ACCOUNT_ID" then some "0.0.5005"
  else if key = "MAINNET_HEDERA_PRIVATE_KEY" then some "mainnet-key"
  else none

/-- An environment with only the mainnet credential pair and a noisy
`HEDERA_NETWORK`. -/
def envMainnetOnly : Env := fun key =>
  if key = "MAINNET_HEDERA_ACCOUNT_ID" then some "0.0.5005"
  else if key = "MAINNET_HEDERA_PRIVATE_KEY" then some "mainnet-key"
  else if key = "HEDERA_NETWORK" then some " MAINNET "
  else none

/-- A transaction signer that echoes the message bytes. -/
def signerW : List Nat → List Nat := fun bytes => bytes

/-- A concrete Hedera operator. -/
def operatorW : HederaOperatorLike :=
  { accountId := .str "0.0.2002", publicKey := .str "302a300506"
    transactionSigner := some signerW }

/-- A concrete Hedera client whose ledger id reports testnet. -/
def hederaClientW : HederaOperatorClientM :=
  { ledgerId := some { isTestnet := some (.ok true) }
    getOperator := some (some operatorW) }

/-- A concrete explicit ledger configuration. -/
def ledgerW : LedgerOptions := { accountId := "0.0.7", network := some "Testnet" }

/-- A plugin configuration carrying `ledgerW`. -/
def configW : PluginConfiguration := { ledger := some ledgerW }

/-- A concrete conversation handle. -/
def handleW : ConversationHandle :=
  .mk "session-1" "standard" none
    (fun _ => .ok (.plain (.vStr "sent")))
    (fun _ => .ok (.plain (.vStr "decrypted")))

/-- A deterministic stand-in for the handle-id generator. -/
def genIdW : Nat → String := fun n => "handle-" ++ toString n

/-- A tool state already holding `handleW` under `"id-1"`. -/
def stW : ExecState := { store := [("id-1", handleW)], nextHandleIdx := 0 }

/-- A trivial `initializeAgent` oracle. -/
def initAgentW : JSValue → InitAgentOutcome := fun _ => .ok none (.vObj [])

/-- A client method returning a plain value. -/
def resolveUaidFn : List JSValue → ClientResult := fun _ => .ok (.plain (.vStr "did:resolved"))

/-- A client method throwing a `RegistryBrokerParseError`. -/
def searchParseFn : List JSValue → ClientResult :=
  fun _ => .parseError "bad payload" (some (.vStr "raw-body"))

/-- A client method returning a conversation handle. -/
def chatStartFn : List JSValue → ClientResult := fun _ => .ok (.handle handleW)

/-- A concrete client oracle exposing three methods. -/
def clientW : RegistryBrokerClientM :=
  { methods := fun path =>
      if path = "resolveUaid" then some resolveUaidFn
      else if path = "search" then some searchParseFn
      else if path = "chat.start" then some chatStartFn
      else none }

/-! ## Helper lemmas -/

theorem isConversationOperation_cases (op : String) (h : isConversationOperation op = true) :
    op = "conversation.send" ∨ op = "conversation.decryptHistoryEntry" ∨
      op = "conversation.release" := by
  simp only [isConversationOperation, CONVERSATION_OPERATIONS, List.contains_cons,
    List.contains_nil, Bool.or_eq_true, beq_iff_eq] at h
  simpa using h

theorem tableOp_not_conversation (op : String) (d : OpDef)
    (h : OPERATION_DEFINITIONS op = some d) : isConversationOperation op = false := by
  cases hcb : isConversationOperation op with
  | false => rfl
  | true =>
    exfalso
    rcases isConversationOperation_cases op hcb with h1 | h1 | h1 <;>
      first
      | (subst h1; exact Bool.noConfusion (congrArg Option.isNone h))

theorem tableOp_not_initializeAgent (op : String) (d : OpDef)
    (h : OPERATION_DEFINITIONS op = some d) : (op == "initializeAgent") = false := by
  cases hb : op == "initializeAgent" with
  | false => rfl
  | true =>
    exfalso
    have hop : op = "initializeAgent" := by simpa [beq_iff_eq] using hb
    subst hop
    exact Bool.noConfusion (congrArg Option.isNone h)

theorem executeParsed_of_table (defs : String → Option OpDef)
    (client : RegistryBrokerClientM) (initAgent : JSValue → InitAgentOutcome)
    (genId : Nat → String) (st : ExecState) (op : String) (payload : JSValue)
    (hconv : isConversationOperation op = false)
    (hinit : (op == "initializeAgent") = false) :
    executeParsed defs client initAgent genId st op payload =
      execTableOperation defs client genId st op payload := by
  unfold executeParsed
  rw [hconv, hinit]
  rfl

theorem deriveNetwork_env_congr (c : HederaOperatorClientM) (e e2 : Env)
    (h : envGet e "HEDERA_NETWORK" = envGet e2 "HEDERA_NETWORK") :
    deriveNetworkFromHederaClient c e = deriveNetworkFromHederaClient c e2 := by
  unfold deriveNetworkFromHederaClient
  rw [h]

theorem deriveHedera_env_congr (ctx : Option HederaOperatorClientM) (e e2 : Env)
    (h : envGet e "HEDERA_NETWORK" = envGet e2 "HEDERA_NETWORK") :
    deriveLedgerOptionsFromHederaClient ctx e = deriveLedgerOptionsFromHederaClient ctx e2 := by
  have hnet : ∀ c, deriveNetworkFromHederaClient c e = deriveNetworkFromHederaClient c e2 :=
    fun c => deriveNetwork_env_congr c e e2 h
  unfold deriveLedgerOptionsFromHederaClient
  simp only [hnet]

/-- C1: Ledger credential resolution follows the fixed precedence: explicit
config (network normalised) is used without consulting the Hedera client or
the environment; otherwise a successful Hedera-client derivation is used and
the environment is only read through `HEDERA_NETWORK` (never for
credentials); otherwise the environment derivation decides, and when it also
fails resolution yields no ledger options. -/
theorem resolveLedgerOptions_precedence (config : Option PluginConfiguration)
    (ctx : Option HederaOperatorClientM) (e e2 : Env) :
    (∀ l, config.bind (·.ledger) = some l →
       resolveLedgerOptions config ctx e = some (normalizeLedgerConfig l)) ∧
    (config.bind (·.ledger) = none →
       (∀ h, deriveLedgerOptionsFromHederaClient ctx e = some h →
          resolveLedgerOptions config ctx e = some h) ∧
       (envGet e "HEDERA_NETWORK" = envGet e2 "HEDERA_NETWORK" →
          deriveLedgerOptionsFromHederaClient ctx e =
            deriveLedgerOptionsFromHederaClient ctx e2) ∧
       (deriveLedgerOptionsFromHederaClient ctx e = none →
          resolveLedgerOptions config ctx e = deriveLedgerOptionsFromEnv e) ∧
       (deriveLedgerOptionsFromHederaClient ctx e = none →
          deriveLedgerOptionsFromEnv e = none →
          resolveLedgerOptions config ctx e = none)) := by
  constructor
  · intro l hl
    unfold resolveLedgerOptions
    rw [hl]
  · intro hn
    refine ⟨?_, fun heq => deriveHedera_env_congr ctx e e2 heq, ?_, ?_⟩
    · intro h hh
      unfold resolveLedgerOptions
      rw [hn, hh]
    · intro hh
      unfold resolveLedgerOptions
      rw [hn, hh]
    · intro hh he
      unfold resolveLedgerOptions
      rw [hn, hh, he]

theorem resolveLedgerOptions_precedence_witness :
    resolveLedgerOptions (some configW) (some hederaClientW) envOperator =
      some (normalizeLedgerConfig ledgerW) ∧
    resolveLedgerOptions none (some hederaClientW) envOperator =
      some
        { accountId := "0.0.2002"
          network := some "hedera:testnet"
          autoAuthenticate := some true
          label := some "Hedera Agent Kit operator"
          sign := some fun message =>
            { signature := base64Encode (signerW (utf8Bytes message))
              signatureKind := "raw"
              publicKey := some "302a300506" } } := by
  constructor
  · exact (resolveLedgerOptions_precedence (some configW) (some hederaClientW)
      envOperator envOperator).1 ledgerW rfl
  · exact ((resolveLedgerOptions_precedence none (some hederaClientW)
      envOperator envOperator).2 rfl).1 _ rfl

/-- C5: Environment credential derivation: the operator env set (with its
per-variable fallbacks) wins over the mainnet set; a set is used only when
both entries are non-empty after trimming (`envGet`); the network is
`HEDERA_NETWORK` lower-cased and `hedera:`-prefixed unless already so,
defaulting to `hedera:testnet` (operator set) / `hedera:mainnet` (mainnet
set) when unset or blank. -/
theorem deriveLedgerOptionsFromEnv_spec (e : Env) (b : Bool) :
    (∀ s, pickLedgerEnvSet e operatorEnvParams = some s →
       deriveLedgerOptionsFromEnv e = some
         { accountId := s.accountId, hederaPrivateKey := some s.privateKey
           network := some (normaliseHederaNetwork (envGet e "HEDERA_NETWORK") false) }) ∧
    (pickLedgerEnvSet e operatorEnvParams = none →
       ∀ s, pickLedgerEnvSet e mainnetEnvParams = some s →
         deriveLedgerOptionsFromEnv e = some
           { accountId := s.accountId, hederaPrivateKey := some s.privateKey
             network := some (normaliseHederaNetwork (envGet e "HEDERA_NETWORK") true) }) ∧
    (pickLedgerEnvSet e operatorEnvParams = none →
       pickLedgerEnvSet e mainnetEnvParams = none →
       deriveLedgerOptionsFromEnv e = none) ∧
    (∀ params s, pickLedgerEnvSet e params = some s ↔
       (envGet e params.accountKey).orElse
           (fun _ => params.fallbackAccountKey.bind (envGet e)) = some s.accountId ∧
       (envGet e params.privateKey).orElse
           (fun _ => params.fallbackPrivateKey.bind (envGet e)) = some s.privateKey ∧
       s.preferMainnet = params.preferMainnet) ∧
    (operatorEnvParams =
       { accountKey := "HEDERA_OPERATOR_ID", privateKey := "HEDERA_OPERATOR_KEY"
         fallbackAccountKey := some "HEDERA_ACCOUNT_ID"
         fallbackPrivateKey := some "HEDERA_PRIVATE_KEY", preferMainnet := false }) ∧
    (mainnetEnvParams =
       { accountKey := "MAINNET_HEDERA_ACCOUNT_ID", privateKey := "MAINNET_HEDERA_PRIVATE_KEY"
         fallbackAccountKey := none, fallbackPrivateKey := none, preferMainnet := true }) ∧
    (∀ k v, envGet e k = some v ↔ ∃ raw, e k = some raw ∧ jsTrim raw = v ∧ v ≠ "") ∧
    (normaliseHederaNetwork none b = if b then "hedera:mainnet" else "hedera:testnet") ∧
    (∀ s, (jsTrim s).isEmpty = true →
       normaliseHederaNetwork (some s) b = if b then "hedera:mainnet" else "hedera:testnet") ∧
    (∀ s, (jsTrim s).isEmpty = false →
       normaliseHederaNetwork (some s) b =
         if jsStartsWith (jsToLower (jsTrim s)) "hedera:" then jsToLower (jsTrim s)
         else "hedera:" ++ jsToLower (jsTrim s)) := by
  have hpick : ∀ params s, pickLedgerEnvSet e params = some s →
      s.preferMainnet = params.preferMainnet := by
    intro params s hs
    unfold pickLedgerEnvSet at hs
    split at hs
    · cases hs; rfl
    · cases hs
  refine ⟨?_, ?_, ?_, ?_, rfl, rfl, ?_, ?_, ?_, ?_⟩
  · intro s hs
    have hpm := hpick operatorEnvParams s hs
    unfold deriveLedgerOptionsFromEnv
    rw [show (pickLedgerEnvSet e operatorEnvParams).orElse
          (fun _ => pickLedgerEnvSet e mainnetEnvParams) = some s by rw [hs]; rfl]
    simp only [hpm]
    rfl
  · intro hn s hs
    have hpm := hpick mainnetEnvParams s hs
    unfold deriveLedgerOptionsFromEnv
    rw [show (pickLedgerEnvSet e operatorEnvParams).orElse
          (fun _ => pickLedgerEnvSet e mainnetEnvParams) = some s by rw [hn, hs]; rfl]
    simp only [hpm]
    rfl
  · intro hn hm
    unfold deriveLedgerOptionsFromEnv
    rw [show (pickLedgerEnvSet e operatorEnvParams).orElse
          (fun _ => pickLedgerEnvSet e mainnetEnvParams) = none by rw [hn, hm]; rfl]
  · intro params s
    obtain ⟨sa, sk, sp⟩ := s
    unfold pickLedgerEnvSet
    rcases ha : (envGet e params.accountKey).orElse
        (fun _ => params.fallbackAccountKey.bind (envGet e)) with _ | a <;>
      rcases hk : (envGet e params.privateKey).orElse
          (fun _ => params.fallbackPrivateKey.bind (envGet e)) with _ | k
    · simp
    · simp
    · simp
    · simp only [Option.some.injEq, LedgerEnvSet.mk.injEq]
      constructor
      · rintro ⟨h1, h2, h3⟩
        exact ⟨h1, h2, h3.symm⟩
      · rintro ⟨h1, h2, h3⟩
        exact ⟨h1, h2, h3.symm⟩
  · intro k v
    unfold envGet
    cases he : e k with
    | none => simp
    | some raw =>
      dsimp only
      by_cases ht : (jsTrim raw).isEmpty = true
      · rw [if_pos ht]
        constructor
        · intro hv; cases hv
        · rintro ⟨raw2, hr, htrim, hne⟩
          cases hr
          exact absurd (htrim ▸ (String.isEmpty_iff (jsTrim raw)).mp ht) hne
      · rw [if_neg ht]
        constructor
        · intro hv
          cases hv
          exact ⟨raw, rfl, rfl, fun hz => ht ((String.isEmpty_iff (jsTrim raw)).mpr hz)⟩
        · rintro ⟨raw2, hr, htrim, hne⟩
          cases hr
          rw [htrim]
  · cases b <;> rfl
  · intro s hs
    unfold normaliseHederaNetwork
    simp only [Option.getD_some, hs]
    cases b <;> rfl
  · intro s hs
    unfold normaliseHederaNetwork
    simp only [Option.getD_some, hs]
    rfl

theorem deriveLedgerOptionsFromEnv_spec_witness :
    deriveLedgerOptionsFromEnv envOperator = some
      { accountId := "0.0.1001", hederaPrivateKey := some "operator-key"
        network := some "hedera:testnet" } ∧
    deriveLedgerOptionsFromEnv envMainnetOnly = some
      { accountId := "0.0.5005", hederaPrivateKey := some "mainnet-key"
        network := some "hedera:mainnet" } := by
  constructor
  · exact (deriveLedgerOptionsFromEnv_spec envOperator false).1
      { accountId := "0.0.1001", privateKey := "operator-key", preferMainnet := false } rfl
  · exact (deriveLedgerOptionsFromEnv_spec envMainnetOnly false).2.1 rfl
      { accountId := "0.0.5005", privateKey := "mainnet-key", preferMainnet := true } rfl

/-- C6: Ledger options derive from the injected Hedera client only when it
has a callable `getOperator` returning an operator with a truthy, formattable
`accountId` and a `transactionSigner` function; otherwise derivation yields
nothing.  On success the options carry the formatted account id,
`autoAuthenticate: true`, the network chosen by probing `isMainnet`,
`isPreviewnet`, `isTestnet` in order (then a non-empty `toString` label, then
`HEDERA_NETWORK`), and a sign callback returning the base64 signature of the
UTF-8 message bytes with kind `raw` and the formatted public key. -/
theorem deriveLedgerOptionsFromHederaClient_spec
    (ctx : Option HederaOperatorClientM) (e : Env) :
    (deriveLedgerOptionsFromHederaClient none e = none) ∧
    (∀ c, ctx = some c →
      (c.getOperator = none → deriveLedgerOptionsFromHederaClient ctx e = none) ∧
      (c.getOperator = some none → deriveLedgerOptionsFromHederaClient ctx e = none) ∧
      (∀ operator, c.getOperator = some (some operator) →
        (operator.accountId.truthy = false →
           deriveLedgerOptionsFromHederaClient ctx e = none) ∧
        (operator.transactionSigner = none →
           deriveLedgerOptionsFromHederaClient ctx e = none) ∧
        (formatAccountId operator.accountId = none →
           deriveLedgerOptionsFromHederaClient ctx e = none) ∧
        (∀ signer accountId, operator.accountId.truthy = true →
           operator.transactionSigner = some signer →
           formatAccountId operator.accountId = some accountId →
           deriveLedgerOptionsFromHederaClient ctx e = some
             { accountId := accountId
               network := some (deriveNetworkFromHederaClient c e)
               hederaPrivateKey := none
               autoAuthenticate := some true
               label := some "Hedera Agent Kit operator"
               sign := some fun message =>
                 { signature := base64Encode (signer (utf8Bytes message))
                   signatureKind := "raw"
                   publicKey := formatAccountId operator.publicKey } }))) ∧
    (∀ c, c.ledgerId = none →
       deriveNetworkFromHederaClient c e =
         normaliseHederaNetwork (envGet e "HEDERA_NETWORK") false) ∧
    (∀ c lid, c.ledgerId = some lid →
      (invokeLedgerCheck lid.isMainnet = true →
         deriveNetworkFromHederaClient c e = "hedera:mainnet") ∧
      (invokeLedgerCheck lid.isMainnet = false →
         invokeLedgerCheck lid.isPreviewnet = true →
         deriveNetworkFromHederaClient c e = "hedera:previewnet") ∧
      (invokeLedgerCheck lid.isMainnet = false →
         invokeLedgerCheck lid.isPreviewnet = false →
         invokeLedgerCheck lid.isTestnet = true →
         deriveNetworkFromHederaClient c e = "hedera:testnet") ∧
      (∀ label, invokeLedgerCheck lid.isMainnet = false →
         invokeLedgerCheck lid.isPreviewnet = false →
         invokeLedgerCheck lid.isTestnet = false →
         lid.toStringFn = some (some label) → label.isEmpty = false →
         deriveNetworkFromHederaClient c e = normaliseHederaNetwork (some label) false) ∧
      (invokeLedgerCheck lid.isMainnet = false →
         invokeLedgerCheck lid.isPreviewnet = false →
         invokeLedgerCheck lid.isTestnet = false →
         (lid.toStringFn = none ∨ lid.toStringFn = some none ∨
            ∃ label, lid.toStringFn = some (some label) ∧ label.isEmpty = true) →
         deriveNetworkFromHederaClient c e =
           normaliseHederaNetwork (envGet e "HEDERA_NETWORK") false)) := by
  refine ⟨rfl, ?_, ?_, ?_⟩
  · intro c hc
    subst hc
    refine ⟨?_, ?_, ?_⟩
    · intro hgo
      unfold deriveLedgerOptionsFromHederaClient
      dsimp only
      rw [hgo]
    · intro hgo
      unfold deriveLedgerOptionsFromHederaClient
      dsimp only
      rw [hgo]
    · intro operator hgo
      refine ⟨?_, ?_, ?_, ?_⟩
      · intro ht
        unfold deriveLedgerOptionsFromHederaClient
        dsimp only
        rw [hgo]
        simp [ht]
      · intro hsig
        unfold deriveLedgerOptionsFromHederaClient
        dsimp only
        rw [hgo]
        cases htr : operator.accountId.truthy
        · simp [htr]
        · simp [hsig]
      · intro hfmt
        unfold deriveLedgerOptionsFromHederaClient
        dsimp only
        rw [hgo]
        cases htr : operator.accountId.truthy
        · simp [htr]
        · cases hsig : operator.transactionSigner
          · simp [hsig]
          · simp [hsig, hfmt]
      · intro signer accountId htr hsig hfmt
        unfold deriveLedgerOptionsFromHederaClient
        dsimp only
        rw [hgo]
        simp [htr, hsig, hfmt]
  · intro c hlid
    unfold deriveNetworkFromHederaClient
    rw [hlid]
  · intro c lid hlid
    refine ⟨?_, ?_, ?_, ?_, ?_⟩
    · intro h1
      unfold deriveNetworkFromHederaClient
      rw [hlid]
      simp [h1]
    · intro h1 h2
      unfold deriveNetworkFromHederaClient
      rw [hlid]
      simp [h1, h2]
    · intro h1 h2 h3
      unfold deriveNetworkFromHederaClient
      rw [hlid]
      simp [h1, h2, h3]
    · intro label h1 h2 h3 ht hl
      unfold deriveNetworkFromHederaClient
      rw [hlid]
      simp [h1, h2, h3, ht, hl]
    · intro h1 h2 h3 hcase
      unfold deriveNetworkFromHederaClient
      rw [hlid]
      rcases hcase with h | h | ⟨label, ht, hl⟩ <;> simp [h1, h2, h3, *]

theorem deriveLedgerOptionsFromHederaClient_spec_witness :
    deriveLedgerOptionsFromHederaClient (some hederaClientW) envEmpty = some
      { accountId := "0.0.2002"
        network := some "hedera:testnet"
        autoAuthenticate := some true
        label := some "Hedera Agent Kit operator"
        sign := some fun message =>
          { signature := base64Encode (signerW (utf8Bytes message))
            signatureKind := "raw"
            publicKey := some "302a300506" } } ∧
    deriveNetworkFromHederaClient hederaClientW envEmpty = "hedera:testnet" := by
  constructor
  · exact (((deriveLedgerOptionsFromHederaClient_spec (some hederaClientW)
        envEmpty).2.1 hederaClientW rfl).2.2 operatorW rfl).2.2.2 signerW "0.0.2002" rfl rfl rfl
  · exact (((deriveLedgerOptionsFromHederaClient_spec (some hederaClientW)
        envEmpty).2.2.2 hederaClientW { isTestnet := some (.ok true) } rfl)).2.2.1 rfl rfl rfl

/-- C7: During first client construction, resolved ledger options with
`autoAuthenticate` not strictly `false` cause exactly one
`authenticateWithLedgerCredentials` call with the `autoAuthenticate` field
removed; `autoAuthenticate === false` or no resolved options cause none,
and in the latter case the missing-credentials warning fires exactly when
no apiKey was resolved either. -/
theorem initialiseClient_autoAuthenticate_spec (config : Option PluginConfiguration)
    (ctx : Option HederaOperatorClientM) (e : Env) :
    (∀ lc, resolveLedgerOptions config ctx e = some lc →
       ((lc.autoAuthenticate == some false) = false →
          initialiseClient config ctx e =
            { clientOptions := buildClientOptions config e
              authCalls := [stripAutoAuthenticate lc]
              warnedNoCredentials := false }) ∧
       ((lc.autoAuthenticate == some false) = true →
          initialiseClient config ctx e =
            { clientOptions := buildClientOptions config e
              authCalls := []
              warnedNoCredentials := false })) ∧
    (resolveLedgerOptions config ctx e = none →
       initialiseClient config ctx e =
         { clientOptions := buildClientOptions config e
           authCalls := []
           warnedNoCredentials := (buildClientOptions config e).apiKey.isNone }) := by
  constructor
  · intro lc hres
    constructor
    · intro hauto
      simp only [initialiseClient, hres, hauto]
      rfl
    · intro hauto
      simp only [initialiseClient, hres, hauto]
      rfl
  · intro hres
    simp only [initialiseClient, hres]

theorem initialiseClient_autoAuthenticate_spec_witness :
    initialiseClient (some configW) none envEmpty =
      { clientOptions := buildClientOptions (some configW) envEmpty
        authCalls := [stripAutoAuthenticate (normalizeLedgerConfig ledgerW)]
        warnedNoCredentials := false } :=
  ((initialiseClient_autoAuthenticate_spec (some configW) none envEmpty).1
    (normalizeLedgerConfig ledgerW) rfl).1 rfl

theorem runGetClients_cached (config : Option PluginConfiguration) (e : Env)
    (c : InitOutcome) (l : List (Option HederaOperatorClientM)) :
    runGetClients config e (some c) l = (List.replicate l.length c, 0) := by
  induction l with
  | nil => rfl
  | cons x xs ih => simp [runGetClients, getClientStep, ih, List.replicate_succ]

/-- C8: Every `getClient` call on one provider resolves to the same client:
initialisation runs exactly once, with the first call's resolution context,
and the context of every later call is ignored. -/
theorem getClient_memoisation (config : Option PluginConfiguration) (e : Env)
    (ctx : Option HederaOperatorClientM) (ctxs : List (Option HederaOperatorClientM)) :
    runGetClients config e none (ctx :: ctxs) =
      (List.replicate (ctxs.length + 1) (initialiseClient config ctx e), 1) := by
  simp [runGetClients, getClientStep, runGetClients_cached, List.replicate_succ]

theorem storeGet_storeSet_self (s : HandleStore) (id : String) (h : ConversationHandle) :
    storeGet (storeSet s id h) id = some h := by
  simp [storeGet, storeSet, List.find?]

theorem storeGet_filter_self (s : HandleStore) (id : String) :
    storeGet (s.filter fun p => !(p.1 == id)) id = none := by
  induction s with
  | nil => rfl
  | cons head tail ih =>
    cases hb : head.1 == id with
    | true => simp [List.filter_cons, hb, ih]
    | false => simp [List.filter_cons, hb, storeGet, List.find?_cons, ih]

theorem conversationSendSchema_ok (id : String) (p : JSValue)
    (hid : id.isEmpty = false) (hp : isObjectLike p = true) :
    conversationSendSchema (.vObj [("handleId", .vStr id), ("payload", p)]) =
      .ok (.vObj [("handleId", .vStr id), ("payload", p)]) := by
  simp [conversationSendSchema, zObject, zObjectWith, parseFields, jlookup,
    zReqField, nonEmptyStringS, objectLikeS, hid, hp, Except.map]

theorem conversationDecryptSchema_ok (id : String) (entry : JSValue)
    (hid : id.isEmpty = false) (hp : isObjectLike entry = true) :
    conversationDecryptSchema (.vObj [("handleId", .vStr id), ("entry", entry)]) =
      .ok (.vObj [("handleId", .vStr id), ("entry", entry)]) := by
  simp [conversationDecryptSchema, zObject, zObjectWith, parseFields, jlookup,
    zReqField, nonEmptyStringS, objectLikeS, hid, hp, Except.map]

theorem conversationReleaseSchema_ok (id : String) (hid : id.isEmpty = false) :
    conversationReleaseSchema (.vObj [("handleId", .vStr id)]) =
      .ok (.vObj [("handleId", .vStr id)]) := by
  simp [conversationReleaseSchema, zObject, zObjectWith, parseFields, jlookup,
    zReqField, nonEmptyStringS, hid, Except.map]

theorem handleConversation_send_eq (genId : Nat → String) (st : ExecState)
    (id : String) (p : JSValue) (h : ConversationHandle)
    (hid : id.isEmpty = false) (hp : isObjectLike p = true)
    (hget : storeGet st.store id = some h) :
    handleConversation genId st "conversation.send"
        (.vObj [("handleId", .vStr id), ("payload", p)]) =
      finishResult genId "conversation.send" st false [] (h.send p) := by
  simp only [handleConversation, nullishToEmptyObject]
  rw [conversationSendSchema_ok id p hid hp]
  dsimp only
  rw [show jsToString (jget (JSValue.vObj [("handleId", JSValue.vStr id), ("payload", p)])
        "handleId") = id from rfl]
  rw [show jget (JSValue.vObj [("handleId", JSValue.vStr id), ("payload", p)]) "payload" = p
        from rfl]
  rw [hget]

theorem handleConversation_send_notfound (genId : Nat → String) (st : ExecState)
    (id : String) (p : JSValue)
    (hid : id.isEmpty = false) (hp : isObjectLike p = true)
    (hget : storeGet st.store id = none) :
    handleConversation genId st "conversation.send"
        (.vObj [("handleId", .vStr id), ("payload", p)]) =
      { result := .error (.thrown ("Conversation handle not found: " ++ id))
        state := st, gotClient := false, calls := [] } := by
  simp only [handleConversation, nullishToEmptyObject]
  rw [conversationSendSchema_ok id p hid hp]
  dsimp only
  rw [show jsToString (jget (JSValue.vObj [("handleId", JSValue.vStr id), ("payload", p)])
        "handleId") = id from rfl]
  rw [hget]

theorem handleConversation_decrypt_eq (genId : Nat → String) (st : ExecState)
    (id : String) (entry : JSValue) (h : ConversationHandle)
    (hid : id.isEmpty = false) (hp : isObjectLike entry = true)
    (hget : storeGet st.store id = some h) :
    handleConversation genId st "conversation.decryptHistoryEntry"
        (.vObj [("handleId", .vStr id), ("entry", entry)]) =
      finishResult genId "conversation.decryptHistoryEntry" st false []
        (h.decryptHistoryEntry entry) := by
  simp only [handleConversation, nullishToEmptyObject]
  rw [conversationDecryptSchema_ok id entry hid hp]
  dsimp only
  rw [show jsToString (jget (JSValue.vObj [("handleId", JSValue.vStr id), ("entry", entry)])
        "handleId") = id from rfl]
  rw [show jget (JSValue.vObj [("handleId", JSValue.vStr id), ("entry", entry)]) "entry" = entry
        from rfl]
  rw [hget]

theorem handleConversation_decrypt_notfound (genId : Nat → String) (st : ExecState)
    (id : String) (entry : JSValue)
    (hid : id.isEmpty = false) (hp : isObjectLike entry = true)
    (hget : storeGet st.store id = none) :
    handleConversation genId st "conversation.decryptHistoryEntry"
        (.vObj [("handleId", .vStr id), ("entry", entry)]) =
      { result := .error (.thrown ("Conversation handle not found: " ++ id))
        state := st, gotClient := false, calls := [] } := by
  simp only [handleConversation, nullishToEmptyObject]
  rw [conversationDecryptSchema_ok id entry hid hp]
  dsimp only
  rw [show jsToString (jget (JSValue.vObj [("handleId", JSValue.vStr id), ("entry", entry)])
        "handleId") = id from rfl]
  rw [hget]

theorem handleConversation_release_eq (genId : Nat → String) (st : ExecState)
    (id : String) (hid : id.isEmpty = false) :
    handleConversation genId st "conversation.release" (.vObj [("handleId", .vStr id)]) =
      { result := .ok (wrapResult "conversation.release"
          (.vBool (storeGet st.store id).isSome))
        state := { store := (storeRelease st.store id).2, nextHandleIdx := st.nextHandleIdx }
        gotClient := false, calls := [] } := by
  simp only [handleConversation, nullishToEmptyObject]
  rw [conversationReleaseSchema_ok id hid]
  dsimp only
  rw [show jsToString (jget (JSValue.vObj [("handleId", JSValue.vStr id)]) "handleId") = id
        from rfl]
  rfl

/-- C2: For every operation in the dispatch table, the payload is validated
against the operation's declared schema before the client method runs:
validation failure makes `execute` throw a validation error with no method
call; a passing payload is mapped per kind — `noArgs` calls with no
arguments, `string` with the single named field (non-empty unless the field
is optional), `object` with the parsed payload (an absent payload is treated
as the empty object),
`tuple` with the definition's `mapArgs` output. -/
theorem execute_dispatch_table_validation
    (operation : String) (d : OpDef) (client : RegistryBrokerClientM)
    (initAgent : JSValue → InitAgentOutcome) (genId : Nat → String)
    (st : ExecState) (payload : JSValue)
    (hd : OPERATION_DEFINITIONS operation = some d) :
    (∀ path f, d = .noArgs path → client.methods path = some f →
       executeParsed OPERATION_DEFINITIONS client initAgent genId st operation payload =
         finishResult genId operation st true [(path, [])] (f [])) ∧
    (∀ path field optional f, d = .stringArg path field optional →
       client.methods path = some f →
       (∀ m, stringArgSchema field optional (stringEffectivePayload optional payload) =
             .error m →
          executeParsed OPERATION_DEFINITIONS client initAgent genId st operation payload =
            { result := .error (.validation m), state := st, gotClient := true, calls := [] }) ∧
       (∀ parsed, stringArgSchema field optional (stringEffectivePayload optional payload) =
             .ok parsed →
          executeParsed OPERATION_DEFINITIONS client initAgent genId st operation payload =
            finishResult genId operation st true [(path, [jget parsed field])]
              (f [jget parsed field]))) ∧
    (∀ path schema f, d = .objectArg path schema → client.methods path = some f →
       (∀ m, schema (nullishToEmptyObject payload) = .error m →
          executeParsed OPERATION_DEFINITIONS client initAgent genId st operation payload =
            { result := .error (.validation m), state := st, gotClient := true, calls := [] }) ∧
       (∀ parsed, schema (nullishToEmptyObject payload) = .ok parsed →
          executeParsed OPERATION_DEFINITIONS client initAgent genId st operation payload =
            finishResult genId operation st true [(path, [parsed])] (f [parsed]))) ∧
    (∀ path schema mapArgs f, d = .tupleArg path schema mapArgs →
       client.methods path = some f →
       (∀ m, schema (nullishToEmptyObject payload) = .error m →
          executeParsed OPERATION_DEFINITIONS client initAgent genId st operation payload =
            { result := .error (.validation m), state := st, gotClient := true, calls := [] }) ∧
       (∀ parsed, schema (nullishToEmptyObject payload) = .ok parsed →
          executeParsed OPERATION_DEFINITIONS client initAgent genId st operation payload =
            finishResult genId operation st true [(path, mapArgs parsed)]
              (f (mapArgs parsed)))) ∧
    (∀ field s, stringArgSchema field false (.vObj [(field, .vStr s)]) =
       if s.isEmpty then .error (field ++ " cannot be empty")
       else .ok (.vObj [(field, .vStr s)])) ∧
    (∀ field, stringArgSchema field true (.vObj []) = .ok (.vObj [])) := by
  have hconv := tableOp_not_conversation operation d hd
  have hinit := tableOp_not_initializeAgent operation d hd
  have hred : executeParsed OPERATION_DEFINITIONS client initAgent genId st operation payload =
      execDefinition client genId st operation payload d := by
    rw [executeParsed_of_table _ _ _ _ _ _ _ hconv hinit]
    unfold execTableOperation
    rw [hd]
  refine ⟨?_, ?_, ?_, ?_, ?_, ?_⟩
  · intro path f hdp hf
    subst hdp
    rw [hred]
    unfold execDefinition execMethodCall
    dsimp only
    rw [hf]
  · intro path field optional f hdp hf
    subst hdp
    constructor
    · intro m hm
      rw [hred]
      unfold execDefinition execMethodCall
      dsimp only
      rw [hf, hm]
      rfl
    · intro parsed hp2
      rw [hred]
      unfold execDefinition execMethodCall
      dsimp only
      rw [hf, hp2]
      rfl
  · intro path schema f hdp hf
    subst hdp
    constructor
    · intro m hm
      rw [hred]
      unfold execDefinition execMethodCall
      dsimp only
      rw [hf, hm]
      rfl
    · intro parsed hp2
      rw [hred]
      unfold execDefinition execMethodCall
      dsimp only
      rw [hf, hp2]
      rfl
  · intro path schema mapArgs f hdp hf
    subst hdp
    constructor
    · intro m hm
      rw [hred]
      unfold execDefinition execMethodCall
      dsimp only
      rw [hf, hm]
      rfl
    · intro parsed hp2
      rw [hred]
      unfold execDefinition execMethodCall
      dsimp only
      rw [hf, hp2]
      rfl
  · intro field s
    cases hs : s.isEmpty <;>
      simp [stringArgSchema, zObjectStrict, zObjectWith, parseFields, jlookup,
        zReqField, nonEmptyStringS, hs, Except.map]
  · intro field
    rfl

theorem execute_dispatch_table_validation_witness :
    OPERATION_DEFINITIONS "resolveUaid" = some (.stringArg "resolveUaid" "uaid" false) ∧
    executeParsed OPERATION_DEFINITIONS clientW initAgentW genIdW stW "resolveUaid"
        (.vObj [("uaid", .vStr "uaid:agent")]) =
      finishResult genIdW "resolveUaid" stW true [("resolveUaid", [.vStr "uaid:agent"])]
        (resolveUaidFn [.vStr "uaid:agent"]) := by
  refine ⟨rfl, ?_⟩
  exact ((execute_dispatch_table_validation "resolveUaid" (.stringArg "resolveUaid" "uaid" false)
      clientW initAgentW genIdW stW (.vObj [("uaid", .vStr "uaid:agent")]) rfl).2.1
      "resolveUaid" "uaid" false resolveUaidFn rfl rfl).2
      (.vObj [("uaid", .vStr "uaid:agent")]) rfl

/-- C3: Conversation handles round-trip through the store by id: a handle
result is registered under the freshly generated id and replaced by
an object carrying handleId, sessionId, mode and summary; a later `conversation.send` or
`conversation.decryptHistoryEntry` naming that id invokes the stored
handle's method on the validated payload and returns its result. -/
theorem conversation_handle_roundtrip (genId : Nat → String) (st : ExecState) :
    (∀ operation gc calls h, finishResult genId operation st gc calls (.ok (.handle h)) =
       { result := .ok (wrapResult operation (.vObj
           [("handleId", .vStr (genId st.nextHandleIdx)),
            ("sessionId", .vStr h.sessionId),
            ("mode", .vStr h.mode),
            ("summary", h.summary.getD .vNull)]))
         state := { store := storeSet st.store (genId st.nextHandleIdx) h
                    nextHandleIdx := st.nextHandleIdx + 1 }
         gotClient := gc, calls := calls }) ∧
    (∀ h, storeGet (storeSet st.store (genId st.nextHandleIdx) h)
        (genId st.nextHandleIdx) = some h) ∧
    (∀ operation path schema client initAgent payload parsed f h,
       OPERATION_DEFINITIONS operation = some (.objectArg path schema) →
       client.methods path = some f →
       schema (nullishToEmptyObject payload) = .ok parsed →
       f [parsed] = .ok (.handle h) →
       executeParsed OPERATION_DEFINITIONS client initAgent genId st operation payload =
         { result := .ok (wrapResult operation (.vObj
             [("handleId", .vStr (genId st.nextHandleIdx)),
              ("sessionId", .vStr h.sessionId),
              ("mode", .vStr h.mode),
              ("summary", h.summary.getD .vNull)]))
           state := { store := storeSet st.store (genId st.nextHandleIdx) h
                      nextHandleIdx := st.nextHandleIdx + 1 }
           gotClient := true, calls := [(path, [parsed])] }) ∧
    (∀ (client : RegistryBrokerClientM) (initAgent : JSValue → InitAgentOutcome)
       id h p, storeGet st.store id = some h → id.isEmpty = false →
       isObjectLike p = true →
       executeParsed OPERATION_DEFINITIONS client initAgent genId st "conversation.send"
           (.vObj [("handleId", .vStr id), ("payload", p)]) =
         finishResult genId "conversation.send" st false [] (h.send p)) ∧
    (∀ (client : RegistryBrokerClientM) (initAgent : JSValue → InitAgentOutcome)
       id h entry, storeGet st.store id = some h → id.isEmpty = false →
       isObjectLike entry = true →
       executeParsed OPERATION_DEFINITIONS client initAgent genId st
           "conversation.decryptHistoryEntry"
           (.vObj [("handleId", .vStr id), ("entry", entry)]) =
         finishResult genId "conversation.decryptHistoryEntry" st false []
           (h.decryptHistoryEntry entry)) := by
  refine ⟨fun operation gc calls h => rfl, fun h => storeGet_storeSet_self _ _ _, ?_, ?_, ?_⟩
  · intro operation path schema client initAgent payload parsed f h hop hf hs hfr
    have hconv := tableOp_not_conversation operation _ hop
    have hinit := tableOp_not_initializeAgent operation _ hop
    rw [executeParsed_of_table _ _ _ _ _ _ _ hconv hinit]
    unfold execTableOperation
    rw [hop]
    unfold execDefinition execMethodCall
    dsimp only
    rw [hf, hs]
    show finishResult genId operation st true [(path, [parsed])] (f [parsed]) = _
    rw [hfr]
    rfl
  · intro client initAgent id h p hget hid hp
    have hstep : executeParsed OPERATION_DEFINITIONS client initAgent genId st
        "conversation.send" (.vObj [("handleId", .vStr id), ("payload", p)]) =
        handleConversation genId st "conversation.send"
          (.vObj [("handleId", .vStr id), ("payload", p)]) := rfl
    rw [hstep, handleConversation_send_eq genId st id p h hid hp hget]
  · intro client initAgent id h entry hget hid hp
    have hstep : executeParsed OPERATION_DEFINITIONS client initAgent genId st
        "conversation.decryptHistoryEntry"
        (.vObj [("handleId", .vStr id), ("entry", entry)]) =
        handleConversation genId st "conversation.decryptHistoryEntry"
          (.vObj [("handleId", .vStr id), ("entry", entry)]) := rfl
    rw [hstep, handleConversation_decrypt_eq genId st id entry h hid hp hget]

theorem conversation_handle_roundtrip_witness :
    executeParsed OPERATION_DEFINITIONS clientW initAgentW genIdW stW "chat.start"
        (.vObj []) =
      { result := .ok (wrapResult "chat.start" (.vObj
          [("handleId", .vStr "handle-0"),
           ("sessionId", .vStr "session-1"),
           ("mode", .vStr "standard"),
           ("summary", .vNull)]))
        state := { store := storeSet stW.store "handle-0" handleW, nextHandleIdx := 1 }
        gotClient := true, calls := [("chat.start", [.vObj []])] } ∧
    executeParsed OPERATION_DEFINITIONS clientW initAgentW genIdW stW "conversation.send"
        (.vObj [("handleId", .vStr "id-1"), ("payload", .vObj [])]) =
      finishResult genIdW "conversation.send" stW false [] (handleW.send (.vObj [])) := by
  constructor
  · exact (conversation_handle_roundtrip genIdW stW).2.2.1 "chat.start" "chat.start"
      (objectLikeS "startChatOptions") clientW initAgentW (.vObj []) (.vObj [])
      chatStartFn handleW rfl rfl rfl rfl
  · exact (conversation_handle_roundtrip genIdW stW).2.2.2.1 clientW initAgentW
      "id-1" handleW (.vObj []) rfl rfl rfl

/-- C4: An operation that is neither a conversation operation, nor
`initializeAgent`, nor a key of the definition table makes `execute` throw
`Unsupported registry broker operation: <operation>` without obtaining a
broker client or invoking any client method. -/
theorem execute_unsupported_operation
    (client : RegistryBrokerClientM) (initAgent : JSValue → InitAgentOutcome)
    (genId : Nat → String) (st : ExecState) (rawInput : JSValue)
    (operation : String) (payload : JSValue)
    (hparse : parseToolInput rawInput = .ok (operation, payload))
    (hconv : isConversationOperation operation = false)
    (hinit : (operation == "initializeAgent") = false)
    (hdef : OPERATION_DEFINITIONS operation = none) :
    execute OPERATION_DEFINITIONS client initAgent genId st rawInput =
      { result := .error (.thrown ("Unsupported registry broker operation: " ++ operation))
        state := st, gotClient := false, calls := [] } := by
  unfold execute
  rw [hparse]
  dsimp only
  rw [executeParsed_of_table _ _ _ _ _ _ _ hconv hinit]
  unfold execTableOperation
  rw [hdef]

theorem execute_unsupported_operation_witness :
    execute OPERATION_DEFINITIONS clientW initAgentW genIdW stW
        (.vObj [("operation", .vStr "frobnicate")]) =
      { result := .error (.thrown ("Unsupported registry broker operation: " ++ "frobnicate"))
        state := stW, gotClient := false, calls := [] } :=
  execute_unsupported_operation clientW initAgentW genIdW stW
    (.vObj [("operation", .vStr "frobnicate")]) "frobnicate" .vUndefined rfl rfl rfl rfl

/-- C9: A `RegistryBrokerParseError` thrown by a dispatched operation
(client method, conversation helper, custom handler, or `initializeAgent`)
makes `execute` resolve successfully with
a success object whose result holds parsed: false, the error message and the
raw value (null when absent); every other error thrown after input parsing
propagates unchanged. -/
theorem execute_parse_error_recovery (genId : Nat → String) (st : ExecState) :
    (∀ operation gc calls m raw,
       finishResult genId operation st gc calls (.parseError m raw) =
         { result := .ok (parseFailureObj operation m raw), state := st
           gotClient := gc, calls := calls }) ∧
    (∀ operation gc calls m,
       finishResult genId operation st gc calls (.err m) =
         { result := .error (.clientError m), state := st, gotClient := gc, calls := calls }) ∧
    (∀ operation path schema client initAgent payload parsed f m raw,
       OPERATION_DEFINITIONS operation = some (.objectArg path schema) →
       client.methods path = some f →
       schema (nullishToEmptyObject payload) = .ok parsed →
       f [parsed] = .parseError m raw →
       executeParsed OPERATION_DEFINITIONS client initAgent genId st operation payload =
         { result := .ok (parseFailureObj operation m raw), state := st
           gotClient := true, calls := [(path, [parsed])] }) ∧
    (∀ operation path schema client initAgent payload parsed f m,
       OPERATION_DEFINITIONS operation = some (.objectArg path schema) →
       client.methods path = some f →
       schema (nullishToEmptyObject payload) = .ok parsed →
       f [parsed] = .err m →
       executeParsed OPERATION_DEFINITIONS client initAgent genId st operation payload =
         { result := .error (.clientError m), state := st
           gotClient := true, calls := [(path, [parsed])] }) ∧
    (∀ (client : RegistryBrokerClientM) (initAgent : JSValue → InitAgentOutcome)
       id h p m raw, storeGet st.store id = some h → id.isEmpty = false →
       isObjectLike p = true → h.send p = .parseError m raw →
       executeParsed OPERATION_DEFINITIONS client initAgent genId st "conversation.send"
           (.vObj [("handleId", .vStr id), ("payload", p)]) =
         { result := .ok (parseFailureObj "conversation.send" m raw), state := st
           gotClient := false, calls := [] }) ∧
    (∀ (defs : String → Option OpDef) operation schema handler client initAgent
       payload parsed m raw,
       isConversationOperation operation = false →
       (operation == "initializeAgent") = false →
       defs operation = some (.custom schema handler) →
       schema payload = .ok parsed → handler parsed = .parseError m raw →
       executeParsed defs client initAgent genId st operation payload =
         { result := .ok (parseFailureObj operation m raw), state := st
           gotClient := false, calls := [] }) ∧
    (∀ (defs : String → Option OpDef) client initAgent payload parsed m raw,
       initializeAgentSchema (nullishToEmptyObject payload) = .ok parsed →
       initAgent parsed = .parseError m raw →
       executeParsed defs client initAgent genId st "initializeAgent" payload =
         { result := .ok (parseFailureObj "initializeAgent" m raw), state := st
           gotClient := false, calls := [] }) := by
  refine ⟨fun operation gc calls m raw => rfl, fun operation gc calls m => rfl,
    ?_, ?_, ?_, ?_, ?_⟩
  · intro operation path schema client initAgent payload parsed f m raw hop hf hs hfr
    have hconv := tableOp_not_conversation operation _ hop
    have hinit := tableOp_not_initializeAgent operation _ hop
    rw [executeParsed_of_table _ _ _ _ _ _ _ hconv hinit]
    unfold execTableOperation
    rw [hop]
    unfold execDefinition execMethodCall
    dsimp only
    rw [hf, hs]
    show finishResult genId operation st true [(path, [parsed])] (f [parsed]) = _
    rw [hfr]
    rfl
  · intro operation path schema client initAgent payload parsed f m hop hf hs hfr
    have hconv := tableOp_not_conversation operation _ hop
    have hinit := tableOp_not_initializeAgent operation _ hop
    rw [executeParsed_of_table _ _ _ _ _ _ _ hconv hinit]
    unfold execTableOperation
    rw [hop]
    unfold execDefinition execMethodCall
    dsimp only
    rw [hf, hs]
    show finishResult genId operation st true [(path, [parsed])] (f [parsed]) = _
    rw [hfr]
    rfl
  · intro client initAgent id h p m raw hget hid hp hpe
    have hstep : executeParsed OPERATION_DEFINITIONS client initAgent genId st
        "conversation.send" (.vObj [("handleId", .vStr id), ("payload", p)]) =
        handleConversation genId st "conversation.send"
          (.vObj [("handleId", .vStr id), ("payload", p)]) := rfl
    rw [hstep, handleConversation_send_eq genId st id p h hid hp hget, hpe]
    rfl
  · intro defs operation schema handler client initAgent payload parsed m raw
      hconv hinit hdefs hs hh
    rw [executeParsed_of_table _ _ _ _ _ _ _ hconv hinit]
    unfold execTableOperation
    rw [hdefs]
    unfold execDefinition
    dsimp only
    rw [hs]
    show finishResult genId operation st false [] (handler parsed) = _
    rw [hh]
    rfl
  · intro defs client initAgent payload parsed m raw hs hia
    have hstep : executeParsed defs client initAgent genId st "initializeAgent" payload =
        execInitializeAgent initAgent genId st "initializeAgent" payload := rfl
    rw [hstep]
    unfold execInitializeAgent
    rw [hs]
    dsimp only
    rw [hia]

theorem execute_parse_error_recovery_witness :
    executeParsed OPERATION_DEFINITIONS clientW initAgentW genIdW stW "search"
        (.vObj []) =
      { result := .ok (parseFailureObj "search" "bad payload" (some (.vStr "raw-body")))
        state := stW, gotClient := true, calls := [("search", [.vObj []])] } :=
  (execute_parse_error_recovery genIdW stW).2.2.1 "search" "search"
    registrySearchParamsSchema clientW initAgentW (.vObj []) (.vObj [])
    searchParseFn "bad payload" (some (.vStr "raw-body")) rfl rfl rfl rfl

/-- C10: `conversation.release` returns true exactly when the handle id is
registered (removing it) and false otherwise; after a release any
`conversation.send` / `conversation.decryptHistoryEntry` with that id throws
`Conversation handle not found: <handleId>`. -/
theorem conversation_release_spec (genId : Nat → String) (st : ExecState)
    (client : RegistryBrokerClientM) (initAgent : JSValue → InitAgentOutcome)
    (id : String) (hid : id.isEmpty = false) :
    (executeParsed OPERATION_DEFINITIONS client initAgent genId st "conversation.release"
        (.vObj [("handleId", .vStr id)]) =
      { result := .ok (wrapResult "conversation.release"
          (.vBool (storeGet st.store id).isSome))
        state := { store := (storeRelease st.store id).2, nextHandleIdx := st.nextHandleIdx }
        gotClient := false, calls := [] }) ∧
    ((storeRelease st.store id).1 = (storeGet st.store id).isSome) ∧
    (storeGet (storeRelease st.store id).2 id = none) ∧
    (∀ p, isObjectLike p = true →
       executeParsed OPERATION_DEFINITIONS client initAgent genId
           { store := (storeRelease st.store id).2, nextHandleIdx := st.nextHandleIdx }
           "conversation.send" (.vObj [("handleId", .vStr id), ("payload", p)]) =
         { result := .error (.thrown ("Conversation handle not found: " ++ id))
           state := { store := (storeRelease st.store id).2
                      nextHandleIdx := st.nextHandleIdx }
           gotClient := false, calls := [] }) ∧
    (∀ entry, isObjectLike entry = true →
       executeParsed OPERATION_DEFINITIONS client initAgent genId
           { store := (storeRelease st.store id).2, nextHandleIdx := st.nextHandleIdx }
           "conversation.decryptHistoryEntry"
           (.vObj [("handleId", .vStr id), ("entry", entry)]) =
         { result := .error (.thrown ("Conversation handle not found: " ++ id))
           state := { store := (storeRelease st.store id).2
                      nextHandleIdx := st.nextHandleIdx }
           gotClient := false, calls := [] }) := by
  refine ⟨?_, rfl, storeGet_filter_self st.store id, ?_, ?_⟩
  · have hstep : executeParsed OPERATION_DEFINITIONS client initAgent genId st
        "conversation.release" (.vObj [("handleId", .vStr id)]) =
        handleConversation genId st "conversation.release"
          (.vObj [("handleId", .vStr id)]) := rfl
    rw [hstep, handleConversation_release_eq genId st id hid]
  · intro p hp
    have hstep : executeParsed OPERATION_DEFINITIONS client initAgent genId
        { store := (storeRelease st.store id).2, nextHandleIdx := st.nextHandleIdx }
        "conversation.send" (.vObj [("handleId", .vStr id), ("payload", p)]) =
        handleConversation genId
          { store := (storeRelease st.store id).2, nextHandleIdx := st.nextHandleIdx }
          "conversation.send" (.vObj [("handleId", .vStr id), ("payload", p)]) := rfl
    rw [hstep, handleConversation_send_notfound genId _ id p hid hp
      (storeGet_filter_self st.store id)]
  · intro entry hp
    have hstep : executeParsed OPERATION_DEFINITIONS client initAgent genId
        { store := (storeRelease st.store id).2, nextHandleIdx := st.nextHandleIdx }
        "conversation.decryptHistoryEntry"
        (.vObj [("handleId", .vStr id), ("entry", entry)]) =
        handleConversation genId
          { store := (storeRelease st.store id).2, nextHandleIdx := st.nextHandleIdx }
          "conversation.decryptHistoryEntry"
          (.vObj [("handleId", .vStr id), ("entry", entry)]) := rfl
    rw [hstep, handleConversation_decrypt_notfound genId _ id entry hid hp
      (storeGet_filter_self st.store id)]

theorem conversation_release_spec_witness :
    executeParsed OPERATION_DEFINITIONS clientW initAgentW genIdW stW "conversation.release"
        (.vObj [("handleId", .vStr "id-1")]) =
      { result := .ok (wrapResult "conversation.release" (.vBool true))
        state := { store := (storeRelease stW.store "id-1").2, nextHandleIdx := 0 }
        gotClient := false, calls := [] } ∧
    executeParsed OPERATION_DEFINITIONS clientW initAgentW genIdW
        { store := (storeRelease stW.store "id-1").2, nextHandleIdx := 0 }
        "conversation.send" (.vObj [("handleId", .vStr "id-1"), ("payload", .vObj [])]) =
      { result := .error (.thrown ("Conversation handle not found: " ++ "id-1"))
        state := { store := (storeRelease stW.store "id-1").2, nextHandleIdx := 0 }
        gotClient := false, calls := [] } := by
  constructor
  · exact (conversation_release_spec genIdW stW clientW initAgentW "id-1" rfl).1
  · exact (conversation_release_spec genIdW stW clientW initAgentW "id-1" rfl).2.2.2.1
      (.vObj []) rfl

end RegistryBroker
